import Mathlib

/-! # BioKontrol dashboard: calibration, historical query and state store

A shallow embedding of the logic of `src/app/page.js` (component `Dashboard`)
and of `src/app/page2.js` (component `Home`), and the properties their
specification states about them.

Conventions of the embedding.

* A JavaScript number is a `JSNum`: `NaN`, the two infinities, or a finite
  binary64 value held as the rational it denotes. Parsing and subtraction round
  to binary64 (`toBinary64`); the two zeros are not told apart.
* An `async` function is modelled by the list of effects it performs, in
  program order; what the outside world answers at an `await` is an argument.
* React state is a record; a state setter is an effect that is applied to it.
* A `useEffect` with a cleanup function is modelled by its cleanup and its body;
  when a dependency changes the cleanup of the previous run precedes the body.
-/

namespace BioKontrol

/-! ## JavaScript numbers -/

/-- A JavaScript number: `NaN`, a finite value, `Infinity` or `-Infinity`. -/
inductive JSNum where
  | nan
  | num (q : ℚ)
  | posInf
  | negInf
  deriving DecidableEq

/-- The integer nearest to `x`, the even one of the two on a tie. -/
def roundHalfEven (x : ℚ) : ℤ :=
  if x + 1 / 2 = (⌊x + 1 / 2⌋ : ℚ) ∧ ⌊x + 1 / 2⌋ % 2 = 1 then ⌊x + 1 / 2⌋ - 1
  else ⌊x + 1 / 2⌋

/-- The binary64 number a positive real rounds to (round to nearest, ties to
even), `none` for `Infinity`. Around `q` the binary64 numbers are the multiples
of `2 ^ (e - 52)`, where `2 ^ e ≤ q < 2 ^ (e + 1)`, and of `2 ^ (-1074)` below
`2 ^ (-1022)`; a result of `2 ^ 1024` or more is `Infinity`. -/
def toBinary64Pos (q : ℚ) : Option ℚ :=
  let e := max (Int.log 2 q) (-1022)
  let r := (roundHalfEven (q / (2 : ℚ) ^ (e - 52)) : ℚ) * (2 : ℚ) ^ (e - 52)
  if (2 : ℚ) ^ (1024 : ℤ) ≤ r then none else some r

/-- The binary64 number a real rounds to. -/
def toBinary64 (q : ℚ) : JSNum :=
  if q = 0 then JSNum.num 0
  else if 0 < q then
    match toBinary64Pos q with
    | some r => JSNum.num r
    | none => JSNum.posInf
  else
    match toBinary64Pos (-q) with
    | some r => JSNum.num (-r)
    | none => JSNum.negInf

namespace JSNum

/-- The global `isNaN` on a number. -/
def isNaN : JSNum → Bool
  | nan => true
  | _ => false

/-- The operator `a < b` on numbers; every comparison with `NaN` is false. -/
def lt : JSNum → JSNum → Bool
  | num a, num b => decide (a < b)
  | num _, posInf => true
  | negInf, num _ => true
  | negInf, posInf => true
  | _, _ => false

/-- The operator `a > b` on numbers. -/
def gt (a b : JSNum) : Bool := lt b a

/-- The operator `a - b` on numbers: the exact difference rounded to binary64. -/
def sub : JSNum → JSNum → JSNum
  | num a, num b => toBinary64 (a - b)
  | nan, _ => nan
  | _, nan => nan
  | posInf, posInf => nan
  | negInf, negInf => nan
  | posInf, _ => posInf
  | negInf, _ => negInf
  | num _, posInf => negInf
  | num _, negInf => posInf

end JSNum

/-! ## `parseFloat` -/

/-- The characters `parseFloat` skips at the start of its argument
(`StrWhiteSpaceChar`: white space and line terminators). -/
def isStrWhiteSpaceChar (c : Char) : Bool :=
  c.toNat = 0x09 || c.toNat = 0x0A || c.toNat = 0x0B || c.toNat = 0x0C || c.toNat = 0x0D ||
  c.toNat = 0x20 || c.toNat = 0xA0 || c.toNat = 0x1680 ||
  (0x2000 ≤ c.toNat && c.toNat ≤ 0x200A) ||
  c.toNat = 0x2028 || c.toNat = 0x2029 || c.toNat = 0x202F || c.toNat = 0x205F ||
  c.toNat = 0x3000 || c.toNat = 0xFEFF

/-- Drop the leading white space. -/
def trimStart : List Char → List Char
  | [] => []
  | c :: cs => if isStrWhiteSpaceChar c then trimStart cs else c :: cs

/-- Is the character one of `0` .. `9`? -/
def isDecimalDigit (c : Char) : Bool := 48 ≤ c.toNat && c.toNat ≤ 57

/-- The longest run of decimal digits at the start, as digit values, and the rest. -/
def takeDigits : List Char → List ℕ × List Char
  | [] => ([], [])
  | c :: cs =>
    if isDecimalDigit c then ((c.toNat - 48) :: (takeDigits cs).1, (takeDigits cs).2)
    else ([], c :: cs)

/-- The natural number written by a list of decimal digits. -/
def digitsValue (ds : List ℕ) : ℕ := ds.foldl (fun acc d => 10 * acc + d) 0

/-- The value `m × 10^e`. -/
def scale10 (m : ℚ) (e : ℤ) : ℚ :=
  if 0 ≤ e then m * (10 : ℚ) ^ e.toNat else m / (10 : ℚ) ^ (-e).toNat

/-- The exponent part `e±ddd` at the start of the input, when there is one with
at least one digit; otherwise the exponent is `0`. -/
def parseExponent : List Char → ℤ
  | c :: cs =>
    if c = 'e' ∨ c = 'E' then
      match cs with
      | '+' :: ds => if (takeDigits ds).1 = [] then 0 else (digitsValue (takeDigits ds).1 : ℤ)
      | '-' :: ds => if (takeDigits ds).1 = [] then 0 else -(digitsValue (takeDigits ds).1 : ℤ)
      | ds => if (takeDigits ds).1 = [] then 0 else (digitsValue (takeDigits ds).1 : ℤ)
    else 0
  | [] => 0

/-- The longest prefix that is a `StrUnsignedDecimalLiteral`, as the exact value
of the decimal text; `none` when no prefix is one. `Infinity` is handled by the
caller. -/
def parseUnsignedDecimal (cs : List Char) : Option ℚ :=
  let ip := (takeDigits cs).1
  let r1 := (takeDigits cs).2
  match r1 with
  | '.' :: r =>
    let fp := (takeDigits r).1
    let r2 := (takeDigits r).2
    if ip = [] ∧ fp = [] then none
    else some (scale10 ((digitsValue (ip ++ fp) : ℚ) / (10 : ℚ) ^ fp.length) (parseExponent r2))
  | _ =>
    if ip = [] then none
    else some (scale10 (digitsValue ip : ℚ) (parseExponent r1))

/-- The characters of `Infinity`. -/
def infinityChars : List Char := ['I', 'n', 'f', 'i', 'n', 'i', 't', 'y']

/-- The unsigned part of `parseFloat`: the value of the decimal text, rounded to
binary64 (correctly rounded, as the common engines do for any number of
digits). -/
def parseUnsigned (cs : List Char) : JSNum :=
  if infinityChars.isPrefixOf cs then JSNum.posInf
  else match parseUnsignedDecimal cs with
    | some q => toBinary64 q
    | none => JSNum.nan

/-- The negation of a number. -/
def JSNum.neg : JSNum → JSNum
  | JSNum.nan => JSNum.nan
  | JSNum.num q => JSNum.num (-q)
  | JSNum.posInf => JSNum.negInf
  | JSNum.negInf => JSNum.posInf

/-- The global `parseFloat` on the characters of a string: skip leading white
space, read an optional sign, then the longest prefix that is a decimal
literal; `NaN` when there is none. Anything after that prefix is ignored. -/
def parseFloatChars (cs : List Char) : JSNum :=
  match trimStart cs with
  | '+' :: r => parseUnsigned r
  | '-' :: r => (parseUnsigned r).neg
  | r => parseUnsigned r

/-- The global `parseFloat`. -/
def parseFloat (s : String) : JSNum := parseFloatChars s.data

/-! ## `Number.prototype.toFixed(3)` -/

/-- The decimal digit with the given value. -/
def digitChar (d : ℕ) : Char := Char.ofNat (48 + d)

/-- The decimal digits of `n`, most significant first, in front of `acc`. -/
def natDigitsAux : ℕ → ℕ → List Char → List Char
  | 0, _, acc => acc
  | fuel + 1, n, acc =>
    if n < 10 then digitChar n :: acc
    else natDigitsAux fuel (n / 10) (digitChar (n % 10) :: acc)

/-- The decimal digits of a natural number. -/
def natDigits (n : ℕ) : List Char := natDigitsAux (n + 1) n []

/-- The thousandths nearest to a non-negative value, the larger one on a tie. -/
def roundThousandths (q : ℚ) : ℕ := ⌊q * 1000 + 1 / 2⌋.toNat

/-- The text `x.toFixed(3)` of a non-negative finite value below `10 ^ 21`. -/
def toFixed3Abs (q : ℚ) : List Char :=
  natDigits (roundThousandths q / 1000) ++ '.' ::
    [digitChar (roundThousandths q / 100 % 10), digitChar (roundThousandths q / 10 % 10),
      digitChar (roundThousandths q % 10)]

/-- The text `x.toFixed(3)` of a non-negative finite value: three decimals below
`10 ^ 21`, and from there on the text `Number::toString` gives, which is taken
as the argument `numberToString`. -/
def toFixed3NonNeg (numberToString : ℚ → String) (q : ℚ) : String :=
  if (10 : ℚ) ^ 21 ≤ q then numberToString q else String.mk (toFixed3Abs q)

/-- The text `x.toFixed(3)`, with a leading `-` for a negative `x`. -/
def toFixed3 (numberToString : ℚ → String) : JSNum → String
  | JSNum.nan => "NaN"
  | JSNum.posInf => "Infinity"
  | JSNum.negInf => "-Infinity"
  | JSNum.num q =>
    if q < 0 then "-" ++ toFixed3NonNeg numberToString (-q)
    else toFixed3NonNeg numberToString q

/-! ## The pH calibration form (`phCalibration`, `handlePhCalibration`) -/

/-- The React state `phCalibration`. -/
structure PhCalibration where
  referencePh : String
  currentPh : String
  isCalibrating : Bool
  deriving DecidableEq

/-- The initial value of `phCalibration` (`useState`). -/
def PhCalibration.initial : PhCalibration :=
  { referencePh := "", currentPh := "", isCalibrating := false }

/-- What the exchange `await fetch('/api/calibrate-ph', ...)` followed by
`await response.json()` comes to:
* `success offset`: a result with `success` true; `offset` is `data.offset`
  when that is a number, `none` when `data` or `data.offset` is missing or not
  a number;
* `failure message`: a result with `success` false and its `message`;
* `threw`: the request is rejected or the body is not JSON. -/
inductive RemoteOutcome where
  | success (offset : Option JSNum)
  | failure (message : String)
  | threw
  deriving DecidableEq

/-- Did the remote call return `success = true`? -/
def RemoteOutcome.isSuccess : RemoteOutcome → Bool
  | RemoteOutcome.success _ => true
  | _ => false

/-- Did the remote call return `success = true` together with a number
`data.offset`? -/
def RemoteOutcome.hasOffset : RemoteOutcome → Bool
  | RemoteOutcome.success (some _) => true
  | _ => false

/-- The observable steps of `handlePhCalibration`. -/
inductive Effect where
  /-- The call `alert(text)`. -/
  | alert (text : String)
  /-- The call `console.error(text, error)`. -/
  | consoleError (text : String)
  /-- The update `setPhCalibration(prev => ({ ...prev, isCalibrating: b }))`. -/
  | setCalibrating (b : Bool)
  /-- The request `fetch('/api/calibrate-ph', { method: 'POST', body })` with
  body `{ referencePh, currentPh }`. -/
  | post (referencePh currentPh : JSNum)
  /-- The update
  `setPhCalibration({ referencePh: '', currentPh: '', isCalibrating: false })`. -/
  | resetForm
  deriving DecidableEq

/-- The message of the first validation check. -/
def msgEmpty : String := "Mohon isi kedua nilai pH"

/-- The message of the second validation check. -/
def msgNotNumber : String := "Nilai pH harus berupa angka yang valid"

/-- The message of the third validation check. -/
def msgOutOfRange : String := "Nilai pH harus berada dalam rentang 0-14"

/-- The `catch` block of `handlePhCalibration`. -/
def calibrationCatch : List Effect :=
  [Effect.consoleError "Error during pH calibration:",
    Effect.alert "Terjadi kesalahan saat kalibrasi pH"]

/-- The steps after the response of the remote call is known: the branches of
`if (result.success)` and the `catch` block. With `success` true and no number
`data.offset`, evaluating `result.data.offset.toFixed(3)` raises before `alert`
is called, and the `catch` block runs. -/
def afterResponse (numberToString : ℚ → String) : RemoteOutcome → List Effect
  | RemoteOutcome.success (some offset) =>
    [Effect.alert ("Kalibrasi pH berhasil!\nOffset: " ++ toFixed3 numberToString offset),
      Effect.resetForm]
  | RemoteOutcome.success none => calibrationCatch
  | RemoteOutcome.failure message => [Effect.alert ("Kalibrasi pH gagal: " ++ message)]
  | RemoteOutcome.threw => calibrationCatch

/-- The function `handlePhCalibration`, run on the state `s` it closes over,
with `remote` answering the request. The result lists what it does, in order. -/
def handlePhCalibration (numberToString : ℚ → String) (s : PhCalibration)
    (remote : JSNum → JSNum → RemoteOutcome) : List Effect :=
  if s.referencePh = "" ∨ s.currentPh = "" then [Effect.alert msgEmpty]
  else
    let refPh := parseFloat s.referencePh
    let curPh := parseFloat s.currentPh
    if refPh.isNaN || curPh.isNaN then [Effect.alert msgNotNumber]
    else if refPh.lt (JSNum.num 0) || refPh.gt (JSNum.num 14) ||
        curPh.lt (JSNum.num 0) || curPh.gt (JSNum.num 14) then
      [Effect.alert msgOutOfRange]
    else
      [Effect.setCalibrating true, Effect.post refPh curPh]
        ++ afterResponse numberToString (remote refPh curPh)
        ++ [Effect.setCalibrating false]

/-- The effect of one step on the state `phCalibration`. -/
def Effect.apply (s : PhCalibration) : Effect → PhCalibration
  | Effect.setCalibrating b => { s with isCalibrating := b }
  | Effect.resetForm => { referencePh := "", currentPh := "", isCalibrating := false }
  | _ => s

/-- The state after a list of steps. -/
def runEffects (s : PhCalibration) (es : List Effect) : PhCalibration :=
  es.foldl Effect.apply s

/-- The states passed through: before the first step and after each step. -/
def trace (s : PhCalibration) : List Effect → List PhCalibration
  | [] => [s]
  | e :: es => s :: trace (e.apply s) es

/-- The state `phCalibration` once `handlePhCalibration` has finished. -/
def afterCalibration (numberToString : ℚ → String) (s : PhCalibration)
    (remote : JSNum → JSNum → RemoteOutcome) : PhCalibration :=
  runEffects s (handlePhCalibration numberToString s remote)

/-- The offset preview under the button: rendered when both fields are
non-empty, as `(parseFloat(referencePh) - parseFloat(currentPh)).toFixed(3)`. -/
def offsetPreview (numberToString : ℚ → String) (s : PhCalibration) : Option String :=
  if s.referencePh ≠ "" ∧ s.currentPh ≠ "" then
    some (toFixed3 numberToString ((parseFloat s.referencePh).sub (parseFloat s.currentPh)))
  else none

/-- A stand-in for `Number::toString` at inputs where `toFixed(3)` does not
call it (every value shown is below `10 ^ 21`). -/
def unusedNumberToString : ℚ → String := fun _ => ""

/-! ### The validation as the specification words it -/

/-- A number in the closed interval `[0, 14]`. -/
def inPhRange : JSNum → Bool
  | JSNum.num q => decide (0 ≤ q ∧ q ≤ 14)
  | _ => false

/-- The three validation checks of the specification, §4.5. -/
inductive Check where
  | bothNonEmpty
  | bothNumbers
  | bothInRange
  deriving DecidableEq

/-- Does the pair of inputs pass the check? -/
def Check.passes (referencePh currentPh : String) : Check → Bool
  | Check.bothNonEmpty => decide (referencePh ≠ "") && decide (currentPh ≠ "")
  | Check.bothNumbers => !(parseFloat referencePh).isNaN && !(parseFloat currentPh).isNaN
  | Check.bothInRange => inPhRange (parseFloat referencePh) && inPhRange (parseFloat currentPh)

/-- The rejection message of a check. -/
def Check.message : Check → String
  | Check.bothNonEmpty => msgEmpty
  | Check.bothNumbers => msgNotNumber
  | Check.bothInRange => msgOutOfRange

/-- The first check, in the order (a), (b), (c), that the inputs fail. -/
def firstFailedCheck (referencePh currentPh : String) : Option Check :=
  [Check.bothNonEmpty, Check.bothNumbers, Check.bothInRange].find?
    (fun c => !c.passes referencePh currentPh)

/-- Both inputs parse to numbers in `[0, 14]`. -/
def validInputs (s : PhCalibration) : Bool :=
  inPhRange (parseFloat s.referencePh) && inPhRange (parseFloat s.currentPh)

/-- The remote call was made and returned `success = true`. -/
def calibrationSucceeded (s : PhCalibration) (remote : JSNum → JSNum → RemoteOutcome) : Bool :=
  validInputs s && (remote (parseFloat s.referencePh) (parseFloat s.currentPh)).isSuccess

/-- The remote call was made and returned `success = true` together with a
number `data.offset`. -/
def calibrationShown (s : PhCalibration) (remote : JSNum → JSNum → RemoteOutcome) : Bool :=
  validInputs s && (remote (parseFloat s.referencePh) (parseFloat s.currentPh)).hasOffset

/-! ## Rows, time stamps and the queries of the data store -/

/-- A point in time: microseconds since the epoch, UTC (the resolution of the
store's `created_at` and `updated_at` columns). -/
abbrev Timestamp := ℤ

/-- A calendar day, as the number of days since the epoch. It stands for the
`YYYY-MM-DD` text held in `dateRange`. -/
abbrev Day := ℤ

/-- The instant the text `${day}T00:00:00Z` denotes. -/
def startOfDay (d : Day) : Timestamp := d * 86400000000

/-- The instant the text `${day}T23:59:59Z` denotes. -/
def endOfDay (d : Day) : Timestamp := d * 86400000000 + 86399000000

/-- The React state `dateRange`. -/
structure DateRange where
  start : Day
  end_ : Day
  deriving DecidableEq

/-- A row of the table `sensors`. -/
structure SensorRow where
  created_at : Timestamp
  ph : ℚ
  temp : ℚ
  ch4 : ℚ
  pressure : ℚ
  deriving DecidableEq

/-- A row of the table `sensor_errors`. -/
structure SensorErrorRow where
  created_at : Timestamp
  ph_error : ℚ
  ph_delta_error : ℚ
  temp_error : ℚ
  temp_delta_error : ℚ
  deriving DecidableEq

/-- A row of the table `actuators`. -/
structure ActuatorRow where
  updated_at : Timestamp
  pump_acid : ℚ
  pump_base : ℚ
  heater : ℚ
  solenoid : ℚ
  stirrer : ℚ
  deriving DecidableEq

/-- The range query built by
`.from(table).select('*').gte('created_at', gte).lte('created_at', lte)
.order('created_at', { ascending })`. -/
structure RangeQuery where
  table : String
  gte : Timestamp
  lte : Timestamp
  ascending : Bool
  deriving DecidableEq

/-- The order a query asks for, on time stamps. -/
def RangeQuery.before (q : RangeQuery) (a b : Timestamp) : Prop :=
  if q.ascending then a ≤ b else b ≤ a

instance (q : RangeQuery) : DecidableRel q.before := fun a b => by
  unfold RangeQuery.before
  exact inferInstance

instance RangeQuery.before_isTotal {α : Type} (q : RangeQuery) (key : α → Timestamp) :
    IsTotal α (fun a b => q.before (key a) (key b)) :=
  ⟨fun a b => by
    unfold RangeQuery.before
    split_ifs
    · exact le_total (key a) (key b)
    · exact le_total (key b) (key a)⟩

instance RangeQuery.before_isTrans {α : Type} (q : RangeQuery) (key : α → Timestamp) :
    IsTrans α (fun a b => q.before (key a) (key b)) :=
  ⟨fun a b c => by
    unfold RangeQuery.before
    split_ifs
    · exact le_trans
    · exact fun h₁ h₂ => le_trans h₂ h₁⟩

/-- The answer of the data store to a range query over the rows of its table
(the store's side of the interface, §6 of the specification): the rows whose
time stamp lies between the two bounds, both included, in the order asked. -/
def RangeQuery.run {α : Type} (q : RangeQuery) (key : α → Timestamp) (rows : List α) : List α :=
  (rows.filter (fun r => decide (q.gte ≤ key r ∧ key r ≤ q.lte))).insertionSort
    (fun a b => q.before (key a) (key b))

/-- What an awaited query comes to: `{ data, error: null }` (with `data`
possibly `null`), `{ error }`, or a rejected promise. -/
inductive QueryResponse (α : Type) where
  | ok (data : Option (List α))
  | error (message : String)
  | threw

/-- Does the answer make the code after the `await` raise: a rejected promise,
or a `data` of `null` without an error (on which `.map` raises)? -/
def QueryResponse.raises {α : Type} : QueryResponse α → Bool
  | QueryResponse.threw => true
  | QueryResponse.ok none => true
  | _ => false

/-- The rows of an answer, when it carries rows: `none` for an error, a
rejected promise and a `data` of `null`. -/
def QueryResponse.rows {α : Type} : QueryResponse α → Option (List α)
  | QueryResponse.ok (some data) => some data
  | _ => none

/-! ## The historical query (`fetchChartData`) -/

/-- A point of the series `historicalData`. -/
structure SensorPoint where
  timestamp : String
  ph : ℚ
  temp : ℚ
  ch4 : ℚ
  pressure : ℚ
  deriving DecidableEq

/-- A point of the series `sensorErrors`. -/
structure ErrorPoint where
  timestamp : String
  ph_error : ℚ
  ph_delta_error : ℚ
  temp_error : ℚ
  temp_delta_error : ℚ
  deriving DecidableEq

/-- The chart-related React state of `Dashboard`. -/
structure Charts where
  historicalData : List SensorPoint
  sensorErrors : List ErrorPoint
  isLoadingCharts : Bool
  deriving DecidableEq

/-- The initial chart state (`useState`). -/
def Charts.initial : Charts :=
  { historicalData := [], sensorErrors := [], isLoadingCharts := false }

/-- The observable steps of `fetchChartData`. -/
inductive ChartEffect where
  /-- The update `setIsLoadingCharts(b)`. -/
  | setIsLoadingCharts (b : Bool)
  /-- A range query sent to the store. -/
  | query (q : RangeQuery)
  /-- The update `setHistoricalData(points)`. -/
  | setHistoricalData (points : List SensorPoint)
  /-- The update `setSensorErrors(points)`. -/
  | setSensorErrors (points : List ErrorPoint)
  /-- The call `console.error(text, error)`. -/
  | consoleError (text : String)
  /-- The call `console.log("sensor error: ", errorData)`. -/
  | consoleLog (text : String)
  deriving DecidableEq

/-- The query on the table `sensors` for a date range. -/
def sensorsQuery (dateRange : DateRange) : RangeQuery :=
  { table := "sensors", gte := startOfDay dateRange.start, lte := endOfDay dateRange.end_,
    ascending := true }

/-- The query on the table `sensor_errors` for a date range. -/
def sensorErrorsQuery (dateRange : DateRange) : RangeQuery :=
  { table := "sensor_errors", gte := startOfDay dateRange.start,
    lte := endOfDay dateRange.end_, ascending := true }

/-- The mapping `historicalData.map(item => ({ timestamp: ..., ph: item.ph, ... }))`;
`toLocaleTimeString` stands for `t => new Date(t).toLocaleTimeString()`, which
depends on the locale and time zone of the browser. -/
def formattedData (toLocaleTimeString : Timestamp → String) (rows : List SensorRow) :
    List SensorPoint :=
  rows.map (fun item =>
    { timestamp := toLocaleTimeString item.created_at, ph := item.ph, temp := item.temp,
      ch4 := item.ch4, pressure := item.pressure })

/-- The mapping `errorData.map(item => ({ timestamp: ..., ph_error: item.ph_error, ... }))`. -/
def formattedErrorData (toLocaleTimeString : Timestamp → String) (rows : List SensorErrorRow) :
    List ErrorPoint :=
  rows.map (fun item =>
    { timestamp := toLocaleTimeString item.created_at, ph_error := item.ph_error,
      ph_delta_error := item.ph_delta_error, temp_error := item.temp_error,
      temp_delta_error := item.temp_delta_error })

/-- The two answers the store gives to one call of `fetchChartData`. -/
structure Backend where
  sensors : RangeQuery → QueryResponse SensorRow
  sensor_errors : RangeQuery → QueryResponse SensorErrorRow

/-- The `catch` block of `fetchChartData`. -/
def chartCatch : List ChartEffect := [ChartEffect.consoleError "Error fetching chart data:"]

/-- The second half of the `try` block of `fetchChartData`: the query on
`sensor_errors` and the handling of its answer. -/
def fetchSensorErrors (toLocaleTimeString : Timestamp → String) (dateRange : DateRange)
    (backend : Backend) : List ChartEffect :=
  ChartEffect.query (sensorErrorsQuery dateRange) ::
    match backend.sensor_errors (sensorErrorsQuery dateRange) with
    | QueryResponse.threw => chartCatch
    | QueryResponse.error _ => [ChartEffect.consoleError "Error fetching sensor errors:"]
    | QueryResponse.ok none => ChartEffect.consoleLog "sensor error: " :: chartCatch
    | QueryResponse.ok (some errorData) =>
      [ChartEffect.consoleLog "sensor error: ",
        ChartEffect.setSensorErrors (formattedErrorData toLocaleTimeString errorData)]

/-- The function `fetchChartData`, for the `dateRange` it closes over, with
`backend` answering its queries. The result lists what it does, in order. A
`data` of `null` without an error makes `.map` raise, which the `catch` block
handles like a rejected query. -/
def fetchChartData (toLocaleTimeString : Timestamp → String) (dateRange : DateRange)
    (backend : Backend) : List ChartEffect :=
  [ChartEffect.setIsLoadingCharts true, ChartEffect.query (sensorsQuery dateRange)]
    ++ (match backend.sensors (sensorsQuery dateRange) with
      | QueryResponse.threw => chartCatch
      | QueryResponse.ok none => chartCatch
      | QueryResponse.error _ =>
        ChartEffect.consoleError "Error fetching historical data:" ::
          fetchSensorErrors toLocaleTimeString dateRange backend
      | QueryResponse.ok (some historicalData) =>
        ChartEffect.setHistoricalData (formattedData toLocaleTimeString historicalData) ::
          fetchSensorErrors toLocaleTimeString dateRange backend)
    ++ [ChartEffect.setIsLoadingCharts false]

/-- The effect of one step on the chart state. -/
def ChartEffect.apply (c : Charts) : ChartEffect → Charts
  | ChartEffect.setIsLoadingCharts b => { c with isLoadingCharts := b }
  | ChartEffect.setHistoricalData points => { c with historicalData := points }
  | ChartEffect.setSensorErrors points => { c with sensorErrors := points }
  | _ => c

/-- The chart state once a call of `fetchChartData` has run to its end with no
other update in between. -/
def afterFetchChartData (toLocaleTimeString : Timestamp → String) (dateRange : DateRange)
    (backend : Backend) (c : Charts) : Charts :=
  (fetchChartData toLocaleTimeString dateRange backend).foldl ChartEffect.apply c

/-- The contents of the data store. -/
structure Store where
  sensors : List SensorRow
  sensor_errors : List SensorErrorRow

/-- A store that answers every range query, without failure. -/
def Store.backend (db : Store) : Backend :=
  { sensors := fun q => QueryResponse.ok (some (q.run SensorRow.created_at db.sensors))
    sensor_errors := fun q =>
      QueryResponse.ok (some (q.run SensorErrorRow.created_at db.sensor_errors)) }

/-- The store of the example: a reading at 08:05 (pH 6.8) and one at 08:00
(pH 7.0) of day 20000, and a reading on the day before. -/
def exampleStore : Store :=
  { sensors :=
      [{ created_at := startOfDay 20000 + 29100000000, ph := 34 / 5, temp := 30, ch4 := 1,
         pressure := 101 },
       { created_at := endOfDay 19999, ph := 5, temp := 29, ch4 := 1, pressure := 100 },
       { created_at := startOfDay 20000 + 28800000000, ph := 7, temp := 30, ch4 := 1,
         pressure := 101 }]
    sensor_errors := [] }

/-- The store of the example with a failing query on `sensor_errors`. -/
def exampleBackendErrorsFail : Backend :=
  { sensors := exampleStore.backend.sensors
    sensor_errors := fun _ => QueryResponse.error "permission denied" }

/-- Two decimal digits. -/
def twoDigits (n : ℕ) : List Char := [digitChar (n / 10 % 10), digitChar (n % 10)]

/-- The clock time `HH:MM:SS` of an instant in UTC: what `toLocaleTimeString`
gives in a locale with a 24-hour clock and colons, in the UTC time zone. -/
def clockTimeUTC (t : Timestamp) : String :=
  let secs := ((t / 1000000) % 86400).toNat
  String.mk (twoDigits (secs / 3600) ++ ':' :: twoDigits (secs / 60 % 60) ++ ':' ::
    twoDigits (secs % 60))

/-! ## Overlapping calls of `fetchChartData` -/

/-- The chart state together with the calls of `fetchChartData` that have begun:
of each call, the steps it has not performed yet (none left: it has finished).
`completed` counts the calls that have run to their end. -/
structure Session where
  charts : Charts
  calls : List (List ChartEffect)
  completed : ℕ

/-- The session of a freshly mounted dashboard. -/
def Session.initial : Session := { charts := Charts.initial, calls := [], completed := 0 }

/-- What can happen next: a new call of `fetchChartData` begins (from the mount
effect, the timer, a push event or the button), or a call in flight goes on. -/
inductive SessionEvent where
  | start (toLocaleTimeString : Timestamp → String) (dateRange : DateRange) (backend : Backend)
  | resume (i : ℕ)

/-- One event. A call that begins performs its first step at once (no `await`
precedes `setIsLoadingCharts(true)`); a call that goes on performs its next
step. -/
def Session.step (s : Session) : SessionEvent → Session
  | SessionEvent.start f r b =>
    match fetchChartData f r b with
    | [] => s
    | e :: rest => { s with charts := e.apply s.charts, calls := s.calls ++ [rest] }
  | SessionEvent.resume i =>
    match s.calls[i]? with
    | some (e :: rest) =>
      { charts := e.apply s.charts, calls := s.calls.set i rest,
        completed := if rest = [] then s.completed + 1 else s.completed }
    | _ => s

/-- The session after a list of events. -/
def Session.run (s : Session) (events : List SessionEvent) : Session :=
  events.foldl Session.step s

/-- The number of calls of `fetchChartData` that have started and not finished. -/
def Session.inFlight (s : Session) : ℕ := (s.calls.filter (fun c => c ≠ [])).length

/-- Does the step write `isLoadingCharts`? -/
def ChartEffect.setsLoading : ChartEffect → Bool
  | ChartEffect.setIsLoadingCharts _ => true
  | _ => false

/-- The shape of what is left of a call of `fetchChartData` that has begun:
nothing, or steps that do not write `isLoadingCharts` followed by the final
`setIsLoadingCharts(false)`. -/
def Pending (call : List ChartEffect) : Prop :=
  call = [] ∨ ∃ mid, call = mid ++ [ChartEffect.setIsLoadingCharts false] ∧
    ∀ e ∈ mid, ChartEffect.setsLoading e = false

/-! ## The state store (`sensorData`, `actuators`) -/

/-- The React state `sensorData`. -/
structure SensorData where
  ph : ℚ
  temp : ℚ
  ch4 : ℚ
  pressure : ℚ
  deriving DecidableEq

/-- The React state `actuators`. -/
structure Actuators where
  pump_acid : ℚ
  pump_base : ℚ
  heater : ℚ
  solenoid : ℚ
  stirrer : ℚ
  deriving DecidableEq

/-- The initial value of `sensorData`. -/
def SensorData.initial : SensorData := { ph := 0, temp := 0, ch4 := 0, pressure := 0 }

/-- The initial value of `actuators`. -/
def Actuators.initial : Actuators :=
  { pump_acid := 0, pump_base := 0, heater := 0, solenoid := 0, stirrer := 0 }

/-- The object `{ ph: row.ph, temp: row.temp, ch4: row.ch4, pressure: row.pressure }`. -/
def SensorData.ofRow (row : SensorRow) : SensorData :=
  { ph := row.ph, temp := row.temp, ch4 := row.ch4, pressure := row.pressure }

/-- The object `{ pump_acid: row.pump_acid, ..., stirrer: row.stirrer }`. -/
def Actuators.ofRow (row : ActuatorRow) : Actuators :=
  { pump_acid := row.pump_acid, pump_base := row.pump_base, heater := row.heater,
    solenoid := row.solenoid, stirrer := row.stirrer }

/-- The function `fetchSensorData`, on the answer to its query for the latest
row: the new value of `sensorData`. -/
def fetchSensorData (response : QueryResponse SensorRow) (sensorData : SensorData) :
    SensorData :=
  match response with
  | QueryResponse.threw => sensorData
  | QueryResponse.error _ => sensorData
  | QueryResponse.ok none => sensorData
  | QueryResponse.ok (some []) => sensorData
  | QueryResponse.ok (some (row :: _)) => SensorData.ofRow row

/-- The function `fetchActuators`, on the answer to its query for the latest
row: the new value of `actuators`. -/
def fetchActuators (response : QueryResponse ActuatorRow) (actuators : Actuators) : Actuators :=
  match response with
  | QueryResponse.threw => actuators
  | QueryResponse.error _ => actuators
  | QueryResponse.ok none => actuators
  | QueryResponse.ok (some []) => actuators
  | QueryResponse.ok (some (row :: _)) => Actuators.ofRow row

/-- An update of a current value that has completed: a push event carrying the
new row (`payload.new`), or the answer to a pull of the latest row. -/
inductive StoreUpdate (α : Type) where
  | push (row : α)
  | pull (response : QueryResponse α)

/-- The handler of the subscription `sensor-changes` and `fetchSensorData`, as
updates of `sensorData`. -/
def applySensorUpdate (sensorData : SensorData) : StoreUpdate SensorRow → SensorData
  | StoreUpdate.push row => SensorData.ofRow row
  | StoreUpdate.pull response => fetchSensorData response sensorData

/-- The handler of the subscription `actuator-changes` and `fetchActuators`, as
updates of `actuators`. -/
def applyActuatorUpdate (actuators : Actuators) : StoreUpdate ActuatorRow → Actuators
  | StoreUpdate.push row => Actuators.ofRow row
  | StoreUpdate.pull response => fetchActuators response actuators

/-- The row an update applies, when it applies one. -/
def StoreUpdate.applied {α : Type} : StoreUpdate α → Option α
  | StoreUpdate.push row => some row
  | StoreUpdate.pull (QueryResponse.ok (some (row :: _))) => some row
  | StoreUpdate.pull _ => none

/-- The value of `sensorData` after the updates, in the order they completed. -/
def applySensorUpdates (sensorData : SensorData) (updates : List (StoreUpdate SensorRow)) :
    SensorData :=
  updates.foldl applySensorUpdate sensorData

/-- The value of `actuators` after the updates, in the order they completed. -/
def applyActuatorUpdates (actuators : Actuators) (updates : List (StoreUpdate ActuatorRow)) :
    Actuators :=
  updates.foldl applyActuatorUpdate actuators

/-- A reading stored at second 1. -/
def olderReading : SensorRow :=
  { created_at := 1000000, ph := 6, temp := 30, ch4 := 1, pressure := 101 }

/-- A reading stored at second 2. -/
def newerReading : SensorRow :=
  { created_at := 2000000, ph := 7, temp := 31, ch4 := 2, pressure := 102 }

/-- An actuator row written at second 1. -/
def olderActuatorRow : ActuatorRow :=
  { updated_at := 1000000, pump_acid := 0, pump_base := 0, heater := 0, solenoid := 0,
    stirrer := 0 }

/-- An actuator row written at second 2. -/
def newerActuatorRow : ActuatorRow :=
  { updated_at := 2000000, pump_acid := 255, pump_base := 0, heater := 128, solenoid := 1,
    stirrer := 1 }

/-! ## Queries for the latest rows -/

/-- The query built by `.from(table).select('*').order(column, { ascending: false })`,
followed by `.limit(n)` when `limit` is `some n`. -/
structure LatestQuery where
  table : String
  column : String
  limit : Option ℕ
  deriving DecidableEq

/-- The answer of the data store to such a query over the rows of its table
(the store's side of the interface, §6 of the specification): the rows in
descending order of the column, cut to the limit. -/
def LatestQuery.run {α : Type} (q : LatestQuery) (key : α → Timestamp) (rows : List α) :
    List α :=
  match q.limit with
  | some n => (rows.insertionSort (fun a b => key b ≤ key a)).take n
  | none => rows.insertionSort (fun a b => key b ≤ key a)

/-- The query of `fetchSensorData`. -/
def latestSensorQuery : LatestQuery :=
  { table := "sensors", column := "created_at", limit := some 1 }

/-- The query of `fetchActuators`. -/
def latestActuatorQuery : LatestQuery :=
  { table := "actuators", column := "updated_at", limit := some 1 }

/-- Does the answer report an error (`{ error }`)? -/
def QueryResponse.isError {α : Type} : QueryResponse α → Bool
  | QueryResponse.error _ => true
  | _ => false

/-! ## The subscription handlers of `Dashboard` -/

/-- The payload of a push event, as far as the handlers read it: it carries a
new record (`payload.new`), or `payload.new` is `undefined` or `null`. -/
inductive PushPayload (α : Type) where
  | record (new : α)
  | noRecord

/-- The calls a handler, a timer callback or an effect body of `Dashboard`
makes. -/
inductive DashboardCall where
  | setSensorData (value : SensorData)
  | setActuators (value : Actuators)
  | fetchChartData
  | fetchSensorData
  | fetchActuators
  | subscribe (channel : String)
  deriving DecidableEq

/-- An exception raised by a handler. -/
inductive JSError where
  /-- Reading a property of `undefined` or `null`. -/
  | typeError
  deriving DecidableEq

/-- The handler of the subscription `sensor-changes` (INSERT on `sensors`), for
the value of `autoRefresh` it closes over: the calls it makes, or the exception
it raises. Reading `payload.new.ph` of a payload without a new record raises
before `setSensorData` is called. -/
def sensorChangesHandler (autoRefresh : Bool) :
    PushPayload SensorRow → Except JSError (List DashboardCall)
  | PushPayload.record new =>
    Except.ok (DashboardCall.setSensorData (SensorData.ofRow new) ::
      (if autoRefresh then [DashboardCall.fetchChartData] else []))
  | PushPayload.noRecord => Except.error JSError.typeError

/-- The handler of the subscription `actuator-changes` (UPDATE on `actuators`). -/
def actuatorChangesHandler : PushPayload ActuatorRow → Except JSError (List DashboardCall)
  | PushPayload.record new => Except.ok [DashboardCall.setActuators (Actuators.ofRow new)]
  | PushPayload.noRecord => Except.error JSError.typeError

/-- The state store of `Dashboard`. -/
structure StateStore where
  sensorData : SensorData
  actuators : Actuators
  deriving DecidableEq

/-- The effect of one call on the state store. -/
def DashboardCall.apply (s : StateStore) : DashboardCall → StateStore
  | DashboardCall.setSensorData value => { s with sensorData := value }
  | DashboardCall.setActuators value => { s with actuators := value }
  | _ => s

/-- The state store after a handler has run: the calls applied in order; after
an exception, which is raised before any call, the store as it was. -/
def StateStore.after (s : StateStore) : Except JSError (List DashboardCall) → StateStore
  | Except.ok calls => calls.foldl DashboardCall.apply s
  | Except.error _ => s

/-- Did the handler call `fetchChartData`? -/
def callsFetchChartData : Except JSError (List DashboardCall) → Bool
  | Except.ok calls => decide (DashboardCall.fetchChartData ∈ calls)
  | Except.error _ => false

/-! ## The refresh timers of `Dashboard` -/

/-- What a timer is for. -/
inductive Purpose where
  | chart
  | actuator
  deriving DecidableEq

/-- An interval started by `setInterval(callback, delayMs)`. -/
structure Interval where
  id : ℕ
  purpose : Purpose
  delayMs : ℕ
  deriving DecidableEq

/-- The callback of an interval: `() => { fetchChartData(); }` for the chart
timer, `() => { fetchActuators(); }` for the actuator timer. -/
def Interval.callback (i : Interval) : List DashboardCall :=
  match i.purpose with
  | Purpose.chart => [DashboardCall.fetchChartData]
  | Purpose.actuator => [DashboardCall.fetchActuators]

/-- The body of the effect that subscribes to `sensor-changes`: it calls
`fetchSensorData()` and subscribes. It runs on mount and when `fetchChartData`
or `autoRefresh` changes. -/
def sensorEffectBody : List DashboardCall :=
  [DashboardCall.fetchSensorData, DashboardCall.subscribe "sensor-changes"]

/-- The part of the state of `Dashboard` the two timer effects read and write:
`autoRefresh`, the intervals set and not cleared, the interval the cleanup
function of each effect will clear (`none` when the effect returned early), and
the next interval id. -/
structure Scheduler where
  autoRefresh : Bool
  active : List Interval
  chartCleanup : Option ℕ
  actuatorCleanup : Option ℕ
  nextId : ℕ

/-- The call `clearInterval(id)`. -/
def clearInterval (id : ℕ) (active : List Interval) : List Interval :=
  active.filter (fun i => decide (i.id ≠ id))

/-- The cleanup function of the chart timer effect, `() => clearInterval(interval)`. -/
def Scheduler.chartEffectCleanup (t : Scheduler) : Scheduler :=
  match t.chartCleanup with
  | some id => { t with active := clearInterval id t.active, chartCleanup := none }
  | none => t

/-- The body of the chart timer effect: return early when `autoRefresh` is off,
else `setInterval(..., 10000)` and return the cleanup function. -/
def Scheduler.chartEffectBody (t : Scheduler) : Scheduler :=
  if t.autoRefresh then
    { t with
      active := { id := t.nextId, purpose := Purpose.chart, delayMs := 10000 } :: t.active
      chartCleanup := some t.nextId
      nextId := t.nextId + 1 }
  else { t with chartCleanup := none }

/-- The cleanup function of the actuator timer effect. -/
def Scheduler.actuatorEffectCleanup (t : Scheduler) : Scheduler :=
  match t.actuatorCleanup with
  | some id => { t with active := clearInterval id t.active, actuatorCleanup := none }
  | none => t

/-- The body of the actuator timer effect. -/
def Scheduler.actuatorEffectBody (t : Scheduler) : Scheduler :=
  if t.autoRefresh then
    { t with
      active := { id := t.nextId, purpose := Purpose.actuator, delayMs := 10000 } :: t.active
      actuatorCleanup := some t.nextId
      nextId := t.nextId + 1 }
  else { t with actuatorCleanup := none }

/-- The dashboard after mounting: `autoRefresh` starts as `true` and both timer
effects have run once. -/
def Scheduler.mounted : Scheduler :=
  ({ autoRefresh := true, active := [], chartCleanup := none, actuatorCleanup := none,
     nextId := 0 } : Scheduler).chartEffectBody.actuatorEffectBody

/-- What makes the timer effects run again: the toggle `setAutoRefresh(!autoRefresh)`
(a dependency of both), or a change of the other dependency of one of them
(`fetchChartData`, `fetchActuators`). -/
inductive SchedulerEvent where
  | toggle
  | rerunChartEffect
  | rerunActuatorEffect
  deriving DecidableEq

/-- One event: React runs the cleanup functions of the effects whose
dependencies changed, then their bodies. -/
def Scheduler.step (t : Scheduler) : SchedulerEvent → Scheduler
  | SchedulerEvent.toggle =>
    ({ t with autoRefresh := !t.autoRefresh } : Scheduler).chartEffectCleanup.actuatorEffectCleanup
      |>.chartEffectBody.actuatorEffectBody
  | SchedulerEvent.rerunChartEffect => t.chartEffectCleanup.chartEffectBody
  | SchedulerEvent.rerunActuatorEffect => t.actuatorEffectCleanup.actuatorEffectBody

/-- The scheduler after a list of events. -/
def Scheduler.run (t : Scheduler) (events : List SchedulerEvent) : Scheduler :=
  events.foldl Scheduler.step t

/-- The number of active timers of a purpose. -/
def Scheduler.timers (t : Scheduler) (p : Purpose) : ℕ :=
  (t.active.filter (fun i => decide (i.purpose = p))).length

/-- The state of the timers between two events: with `autoRefresh` off nothing
is active and no cleanup is pending; with it on there is one interval of each
purpose, of 10 seconds, each the one its effect will clear. -/
def Scheduler.Consistent (t : Scheduler) : Prop :=
  (t.autoRefresh = false ∧ t.active = [] ∧ t.chartCleanup = none ∧ t.actuatorCleanup = none) ∨
  (t.autoRefresh = true ∧ ∃ c a, c ≠ a ∧ c < t.nextId ∧ a < t.nextId ∧
    t.chartCleanup = some c ∧ t.actuatorCleanup = some a ∧
    (t.active = [{ id := c, purpose := Purpose.chart, delayMs := 10000 },
        { id := a, purpose := Purpose.actuator, delayMs := 10000 }] ∨
      t.active = [{ id := a, purpose := Purpose.actuator, delayMs := 10000 },
        { id := c, purpose := Purpose.chart, delayMs := 10000 }]))

/-! ## The view `Home` (`page2.js`) -/

/-- A row of `sensors` or `actuators` as `Home` reads it: a quantity (`type`),
its `value`, and the time stamp the query orders by (`created_at` for
`sensors`, `updated_at` for `actuators`). -/
structure TypedRow where
  timestamp : Timestamp
  type : String
  value : ℚ
  deriving DecidableEq

/-- A row of the table `control_mode`. -/
structure ControlModeRow where
  updated_at : Timestamp
  is_auto : Bool
  deriving DecidableEq

/-- An object with numeric properties: the value of each property name, `none`
for `undefined`. -/
abbrev JSObject := String → Option ℚ

/-- The object `{}`. -/
def JSObject.empty : JSObject := fun _ => none

/-- The assignment `obj[key] = value`. -/
def JSObject.set (obj : JSObject) (key : String) (value : ℚ) : JSObject :=
  fun k => if k = key then some value else obj k

/-- The loop `rows.forEach((r) => { formatted[r.type] = r.value; })` on a new
object `formatted`. -/
def formatByType (rows : List TypedRow) : JSObject :=
  rows.foldl (fun formatted r => formatted.set r.type r.value) JSObject.empty

/-- The React state of `Home`. -/
structure Home where
  sensorData : JSObject
  actuator : JSObject
  isAuto : Bool

/-- The initial state of `Home` (`useState`). -/
def Home.initial : Home :=
  { sensorData := JSObject.empty, actuator := JSObject.empty, isAuto := true }

/-- The query of `fetchInitialData` on `sensors`. -/
def homeSensorsQuery : LatestQuery :=
  { table := "sensors", column := "created_at", limit := none }

/-- The query of `fetchInitialData` on `actuators`. -/
def homeActuatorsQuery : LatestQuery :=
  { table := "actuators", column := "updated_at", limit := none }

/-- The query of `fetchInitialData` on `control_mode`. -/
def homeControlQuery : LatestQuery :=
  { table := "control_mode", column := "updated_at", limit := some 1 }

/-- The function `fetchInitialData`, on the answers to its three queries: the
new state of `Home`. A rejected query leaves the function by an exception and an
answer with an error makes it return, in both cases before any update. -/
def fetchInitialData (sensors actuators : QueryResponse TypedRow)
    (control : QueryResponse ControlModeRow) (s : Home) : Home :=
  match sensors, actuators, control with
  | QueryResponse.ok sensors, QueryResponse.ok actuators, QueryResponse.ok control =>
    { sensorData :=
        match sensors with
        | some (r :: rs) => formatByType (r :: rs)
        | _ => s.sensorData
      actuator :=
        match actuators with
        | some (a :: as) => formatByType (a :: as)
        | _ => s.actuator
      isAuto :=
        match control with
        | some (c :: _) => c.is_auto
        | _ => s.isAuto }
  | _, _, _ => s

/-- The props `Home` passes to one `ActuatorControl`. -/
structure ActuatorControlProps where
  label : String
  actuatorKey : String
  value : ℚ
  disabled : Bool
  deriving DecidableEq

/-- The expression `obj[key] || 0`. -/
def JSObject.orZero (obj : JSObject) (key : String) : ℚ :=
  match obj key with
  | some v => v
  | none => 0

/-- The expression `obj[key] ? 255 : 0`. -/
def JSObject.onOff (obj : JSObject) (key : String) : ℚ :=
  match obj key with
  | some v => if v = 0 then 0 else 255
  | none => 0

/-- The five `ActuatorControl` elements `Home` renders. -/
def Home.controls (s : Home) : List ActuatorControlProps :=
  [{ label := "Pompa Asam", actuatorKey := "pump_acid",
     value := s.actuator.orZero "pump_acid", disabled := s.isAuto },
   { label := "Pompa Basa", actuatorKey := "pump_base",
     value := s.actuator.orZero "pump_base", disabled := s.isAuto },
   { label := "Heater", actuatorKey := "heater",
     value := s.actuator.orZero "heater", disabled := s.isAuto },
   { label := "Solenoid", actuatorKey := "solenoid",
     value := s.actuator.onOff "solenoid", disabled := s.isAuto },
   { label := "Motor", actuatorKey := "stirrer",
     value := s.actuator.onOff "stirrer", disabled := s.isAuto }]

/-- The store of the failing example: two readings of `ph`, the older one with
value 6 and the newer one with value 7. -/
def twoPhReadings : List TypedRow :=
  [{ timestamp := 1000000, type := "ph", value := 6 },
   { timestamp := 2000000, type := "ph", value := 7 }]

/-- Two rows of `pump_acid`: the older one with value 0 and the newer one with
value 255. -/
def twoPumpRows : List TypedRow :=
  [{ timestamp := 1000000, type := "pump_acid", value := 0 },
   { timestamp := 2000000, type := "pump_acid", value := 255 }]

/-- Two control-mode records: automatic at second 1, manual at second 2. -/
def twoControlModes : List ControlModeRow :=
  [{ updated_at := 1000000, is_auto := true }, { updated_at := 2000000, is_auto := false }]

/-! ## Lemmas on binary64 rounding and `parseFloat` -/

theorem roundHalfEven_of_near (x : ℚ) (n : ℤ) (h1 : (n : ℚ) - 1 / 2 < x)
    (h2 : x < n + 1 / 2) : roundHalfEven x = n := by
  have hf : ⌊x + 1 / 2⌋ = n := by
    rw [Int.floor_eq_iff]
    constructor <;> linarith
  unfold roundHalfEven
  rw [hf]
  have hne : ¬ (x + 1 / 2 = (n : ℚ)) := by
    intro h
    linarith
  exact if_neg (fun h => hne h.1)

theorem log_two_eq (q : ℚ) (e : ℤ) (h1 : (2 : ℚ) ^ e ≤ q) (h2 : q < (2 : ℚ) ^ (e + 1)) :
    Int.log 2 q = e := by
  have hq : 0 < q := lt_of_lt_of_le (by positivity) h1
  have ha : e ≤ Int.log 2 q :=
    (Int.zpow_le_iff_le_log (by norm_num) hq).mp (by exact_mod_cast h1)
  have hb : Int.log 2 q < e + 1 :=
    (Int.lt_zpow_iff_log_lt (by norm_num) hq).mp (by exact_mod_cast h2)
  omega

/-- A positive real in the binade of `2 ^ e` rounds to `n * 2 ^ (e - 52)` when
`n` is the integer nearest to its quotient by `2 ^ (e - 52)`. -/
theorem toBinary64_of_near (q : ℚ) (e n : ℤ) (h1 : (2 : ℚ) ^ e ≤ q)
    (h2 : q < (2 : ℚ) ^ (e + 1)) (he : -1022 ≤ e)
    (hn1 : (n : ℚ) - 1 / 2 < q / (2 : ℚ) ^ (e - 52))
    (hn2 : q / (2 : ℚ) ^ (e - 52) < n + 1 / 2)
    (hmax : (n : ℚ) * (2 : ℚ) ^ (e - 52) < (2 : ℚ) ^ (1024 : ℤ)) :
    toBinary64 q = JSNum.num ((n : ℚ) * (2 : ℚ) ^ (e - 52)) := by
  have hq : 0 < q := lt_of_lt_of_le (by positivity) h1
  have hlog := log_two_eq q e h1 h2
  unfold toBinary64
  rw [if_neg (ne_of_gt hq), if_pos hq]
  unfold toBinary64Pos
  simp only [hlog, max_eq_left he, roundHalfEven_of_near _ n hn1 hn2]
  rw [if_neg (not_le.mpr hmax)]

theorem toBinary64_7 : toBinary64 7 = JSNum.num 7 := by
  have h := toBinary64_of_near 7 2 (7 * 2 ^ 50) (by norm_num) (by norm_num) (by norm_num)
    (by norm_num) (by norm_num) (by norm_num)
  rw [h]
  norm_num

theorem toBinary64_15 : toBinary64 15 = JSNum.num 15 := by
  have h := toBinary64_of_near 15 3 (15 * 2 ^ 49) (by norm_num) (by norm_num) (by norm_num)
    (by norm_num) (by norm_num) (by norm_num)
  rw [h]
  norm_num

/-- The decimal `6.85` is not a binary64 number; it rounds to this one. -/
theorem toBinary64_6_85 :
    toBinary64 (137 / 20) = JSNum.num (3856207180935987 / 562949953421312) := by
  have h := toBinary64_of_near (137 / 20) 2 7712414361871974 (by norm_num) (by norm_num)
    (by norm_num) (by norm_num) (by norm_num) (by norm_num)
  rw [h]
  norm_num

/-- A decimal just above 14 rounds to 14. -/
theorem toBinary64_above_14 :
    toBinary64 (1400000000000000000001 / 100000000000000000000) = JSNum.num 14 := by
  have h := toBinary64_of_near (1400000000000000000001 / 100000000000000000000) 3
    (14 * 2 ^ 49) (by norm_num) (by norm_num) (by norm_num) (by norm_num) (by norm_num)
    (by norm_num)
  rw [h]
  norm_num

/-- The difference of 7 and the binary64 number for `6.85` is a binary64 number. -/
theorem sub_7_6_85 :
    (JSNum.num 7).sub (JSNum.num (3856207180935987 / 562949953421312)) =
      JSNum.num (84442493013197 / 562949953421312) := by
  have h := toBinary64_of_near (7 - 3856207180935987 / 562949953421312) (-3)
    (84442493013197 * 64) (by norm_num) (by norm_num) (by norm_num) (by norm_num)
    (by norm_num) (by norm_num)
  simp only [JSNum.sub]
  rw [h]
  norm_num

theorem parseFloat_empty : parseFloat "" = JSNum.nan := rfl

theorem parseFloat_abc : parseFloat "abc" = JSNum.nan := by decide

theorem parseFloat_7_00 : parseFloat "7.00" = JSNum.num 7 := by
  have h : parseFloat "7.00" = toBinary64 7 := by
    simp [parseFloat, parseFloatChars, trimStart, isStrWhiteSpaceChar, parseUnsigned,
      infinityChars, parseUnsignedDecimal, takeDigits, isDecimalDigit, digitsValue, scale10,
      parseExponent]
    norm_num
  rw [h, toBinary64_7]

theorem parseFloat_7 : parseFloat "7" = JSNum.num 7 := by
  have h : parseFloat "7" = toBinary64 7 := by
    simp [parseFloat, parseFloatChars, trimStart, isStrWhiteSpaceChar, parseUnsigned,
      infinityChars, parseUnsignedDecimal, takeDigits, isDecimalDigit, digitsValue, scale10,
      parseExponent]
  rw [h, toBinary64_7]

/-- Text after the decimal literal is ignored by `parseFloat`. -/
theorem parseFloat_7abc : parseFloat "7abc" = JSNum.num 7 := by
  have h : parseFloat "7abc" = toBinary64 7 := by
    simp [parseFloat, parseFloatChars, trimStart, isStrWhiteSpaceChar, parseUnsigned,
      infinityChars, parseUnsignedDecimal, takeDigits, isDecimalDigit, digitsValue, scale10,
      parseExponent]
  rw [h, toBinary64_7]

theorem parseFloat_15 : parseFloat "15" = JSNum.num 15 := by
  have h : parseFloat "15" = toBinary64 15 := by
    simp [parseFloat, parseFloatChars, trimStart, isStrWhiteSpaceChar, parseUnsigned,
      infinityChars, parseUnsignedDecimal, takeDigits, isDecimalDigit, digitsValue, scale10,
      parseExponent]
  rw [h, toBinary64_15]

theorem parseFloat_6_85 :
    parseFloat "6.85" = JSNum.num (3856207180935987 / 562949953421312) := by
  have h : parseFloat "6.85" = toBinary64 (137 / 20) := by
    simp [parseFloat, parseFloatChars, trimStart, isStrWhiteSpaceChar, parseUnsigned,
      infinityChars, parseUnsignedDecimal, takeDigits, isDecimalDigit, digitsValue, scale10,
      parseExponent]
    norm_num
  rw [h, toBinary64_6_85]

theorem parseFloat_above_14 : parseFloat "14.00000000000000000001" = JSNum.num 14 := by
  have h : parseFloat "14.00000000000000000001" =
      toBinary64 (1400000000000000000001 / 100000000000000000000) := by
    simp [parseFloat, parseFloatChars, trimStart, isStrWhiteSpaceChar, parseUnsigned,
      infinityChars, parseUnsignedDecimal, takeDigits, isDecimalDigit, digitsValue, scale10,
      parseExponent]
    norm_num
  rw [h, toBinary64_above_14]

theorem toFixed3_one (numberToString : ℚ → String) :
    toFixed3 numberToString (JSNum.num 1) = "1.000" := by
  have hfloor : ⌊(1 : ℚ) * 1000 + 1 / 2⌋ = 1000 := by
    rw [Int.floor_eq_iff]
    norm_num
  have hn : ¬ ((1 : ℚ) < 0) := by norm_num
  have hbig : ¬ ((10 : ℚ) ^ 21 ≤ 1) := by norm_num
  simp only [toFixed3, toFixed3NonNeg, hn, hbig, if_false, toFixed3Abs, roundThousandths, hfloor]
  decide

theorem toFixed3_offset_example (numberToString : ℚ → String) :
    toFixed3 numberToString (JSNum.num (84442493013197 / 562949953421312)) = "0.150" := by
  have hfloor : ⌊(84442493013197 / 562949953421312 : ℚ) * 1000 + 1 / 2⌋ = 150 := by
    rw [Int.floor_eq_iff]
    norm_num
  have hn : ¬ ((84442493013197 / 562949953421312 : ℚ) < 0) := by norm_num
  have hbig : ¬ ((10 : ℚ) ^ 21 ≤ 84442493013197 / 562949953421312) := by norm_num
  simp only [toFixed3, toFixed3NonNeg, hn, hbig, if_false, toFixed3Abs, roundThousandths, hfloor]
  decide

/-! ## Lemmas on the calibration handler -/

theorem inPhRange_iff (x : JSNum) :
    inPhRange x = true ↔
      x.isNaN = false ∧ x.lt (JSNum.num 0) = false ∧ x.gt (JSNum.num 14) = false := by
  cases x <;> simp [inPhRange, JSNum.isNaN, JSNum.lt, JSNum.gt]

theorem inPhRange_false_iff (x : JSNum) :
    inPhRange x = false ↔
      x.isNaN = true ∨ x.lt (JSNum.num 0) = true ∨ x.gt (JSNum.num 14) = true := by
  cases x with
  | num q =>
    simp only [inPhRange, JSNum.isNaN, JSNum.lt, JSNum.gt, decide_eq_false_iff_not, not_and,
      not_le, decide_eq_true_eq, false_or, Bool.false_eq_true]
    constructor
    · intro h
      rcases lt_or_le q 0 with h0 | h0
      · exact Or.inl h0
      · exact Or.inr (h h0)
    · rintro (h | h) h0
      · exact absurd h (not_lt.mpr h0)
      · exact h
  | nan => simp [inPhRange, JSNum.isNaN]
  | posInf => simp [inPhRange, JSNum.lt, JSNum.gt]
  | negInf => simp [inPhRange, JSNum.lt]

/-- With valid inputs the handler submits: it sets `isCalibrating`, posts the
two parsed numbers, handles the response and clears `isCalibrating`. -/
theorem handlePhCalibration_of_valid (numberToString : ℚ → String) (s : PhCalibration)
    (remote : JSNum → JSNum → RemoteOutcome) (h : validInputs s = true) :
    handlePhCalibration numberToString s remote =
      [Effect.setCalibrating true, Effect.post (parseFloat s.referencePh) (parseFloat s.currentPh)]
        ++ afterResponse numberToString
          (remote (parseFloat s.referencePh) (parseFloat s.currentPh))
        ++ [Effect.setCalibrating false] := by
  simp only [validInputs, Bool.and_eq_true, inPhRange_iff] at h
  obtain ⟨⟨h1, h2, h3⟩, h4, h5, h6⟩ := h
  have hr : s.referencePh ≠ "" := by
    intro he
    rw [he, parseFloat_empty] at h1
    simp [JSNum.isNaN] at h1
  have hc : s.currentPh ≠ "" := by
    intro he
    rw [he, parseFloat_empty] at h4
    simp [JSNum.isNaN] at h4
  simp [handlePhCalibration, hr, hc, h1, h2, h3, h4, h5, h6]

/-- With invalid inputs the handler shows one of the three rejection messages
and does nothing else. -/
theorem handlePhCalibration_of_invalid (numberToString : ℚ → String) (s : PhCalibration)
    (remote : JSNum → JSNum → RemoteOutcome) (h : validInputs s = false) :
    handlePhCalibration numberToString s remote = [Effect.alert msgEmpty] ∨
      handlePhCalibration numberToString s remote = [Effect.alert msgNotNumber] ∨
      handlePhCalibration numberToString s remote = [Effect.alert msgOutOfRange] := by
  unfold handlePhCalibration
  dsimp only
  split_ifs with h1 h2 h3
  · exact Or.inl rfl
  · exact Or.inr (Or.inl rfl)
  · exact Or.inr (Or.inr rfl)
  · exfalso
    simp only [Bool.or_eq_true, not_or, Bool.not_eq_true] at h2 h3
    have hv : validInputs s = true := by
      simp only [validInputs, Bool.and_eq_true, inPhRange_iff]
      exact ⟨⟨h2.1, h3.1.1.1, h3.1.1.2⟩, h2.2, h3.1.2, h3.2⟩
    rw [hv] at h
    exact Bool.noConfusion h

theorem validInputs_7_00_6_85 : validInputs ⟨"7.00", "6.85", false⟩ = true := by
  simp only [validInputs, parseFloat_7_00, parseFloat_6_85, inPhRange]
  norm_num

theorem validInputs_7abc_7 : validInputs ⟨"7abc", "7", false⟩ = true := by
  simp only [validInputs, parseFloat_7abc, parseFloat_7, inPhRange]
  norm_num

theorem validInputs_above_14 :
    validInputs ⟨"14.00000000000000000001", "7", false⟩ = true := by
  simp only [validInputs, parseFloat_above_14, parseFloat_7, inPhRange]
  norm_num

/-! ## The calibration service -/

/-- C1, as the code has it: for every pair of input strings, if `parseFloat`
gives `NaN` for either input (the text does not begin, after white space, with
a decimal literal; this includes the empty text) or either parsed binary64
value lies outside `[0, 14]`, then `handlePhCalibration` shows one message and
returns: it makes no POST to `/api/calibrate-ph`, never sets `isCalibrating` to
true, and every state it passes through is the state it started from. -/
theorem handlePhCalibration_rejects_before_request (numberToString : ℚ → String)
    (s : PhCalibration) (remote : JSNum → JSNum → RemoteOutcome)
    (h : (parseFloat s.referencePh).isNaN = true ∨ (parseFloat s.currentPh).isNaN = true ∨
      inPhRange (parseFloat s.referencePh) = false ∨
      inPhRange (parseFloat s.currentPh) = false) :
    (∃ text, handlePhCalibration numberToString s remote = [Effect.alert text]) ∧
      (∀ r c, Effect.post r c ∉ handlePhCalibration numberToString s remote) ∧
      Effect.setCalibrating true ∉ handlePhCalibration numberToString s remote ∧
      ∀ s' ∈ trace s (handlePhCalibration numberToString s remote), s' = s := by
  have hv : validInputs s = false := by
    simp only [validInputs, Bool.and_eq_false_iff]
    rcases h with h | h | h | h
    · left
      cases hx : parseFloat s.referencePh <;> simp_all [JSNum.isNaN, inPhRange]
    · right
      cases hx : parseFloat s.currentPh <;> simp_all [JSNum.isNaN, inPhRange]
    · exact Or.inl h
    · exact Or.inr h
  rcases handlePhCalibration_of_invalid numberToString s remote hv with e | e | e <;>
    rw [e] <;> simp [trace, Effect.apply]

/-- C1 (amended) at the inputs `"abc"` (no number) and `"15"` (out of range). -/
theorem handlePhCalibration_rejects_before_request_witness :
    ((parseFloat "abc").isNaN = true ∨ (parseFloat "15").isNaN = true ∨
      inPhRange (parseFloat "abc") = false ∨ inPhRange (parseFloat "15") = false) ∧
    (∃ text, handlePhCalibration unusedNumberToString ⟨"abc", "15", false⟩
      (fun _ _ => RemoteOutcome.threw) = [Effect.alert text]) ∧
    Effect.setCalibrating true ∉
      handlePhCalibration unusedNumberToString ⟨"abc", "15", false⟩
        (fun _ _ => RemoteOutcome.threw) :=
  have h : (parseFloat "abc").isNaN = true ∨ (parseFloat "15").isNaN = true ∨
      inPhRange (parseFloat "abc") = false ∨ inPhRange (parseFloat "15") = false :=
    Or.inl (by rw [parseFloat_abc]; rfl)
  ⟨h, (handlePhCalibration_rejects_before_request unusedNumberToString ⟨"abc", "15", false⟩
      (fun _ _ => RemoteOutcome.threw) h).1,
    (handlePhCalibration_rejects_before_request unusedNumberToString ⟨"abc", "15", false⟩
      (fun _ _ => RemoteOutcome.threw) h).2.2.1⟩

/-- C1 refuted as stated: the input `"7abc"` is not numeric, yet `parseFloat`
reads its prefix `7` and the handler posts `{ referencePh: 7, currentPh: 7 }`;
and the input `"14.00000000000000000001"` denotes a value above 14, yet it
parses to the binary64 number 14 and the handler posts it. -/
theorem non_numeric_input_is_posted :
    handlePhCalibration unusedNumberToString ⟨"7abc", "7", false⟩
        (fun _ _ => RemoteOutcome.threw) =
      [Effect.setCalibrating true, Effect.post (JSNum.num 7) (JSNum.num 7),
        Effect.consoleError "Error during pH calibration:",
        Effect.alert "Terjadi kesalahan saat kalibrasi pH", Effect.setCalibrating false] ∧
    handlePhCalibration unusedNumberToString ⟨"14.00000000000000000001", "7", false⟩
        (fun _ _ => RemoteOutcome.threw) =
      [Effect.setCalibrating true, Effect.post (JSNum.num 14) (JSNum.num 7),
        Effect.consoleError "Error during pH calibration:",
        Effect.alert "Terjadi kesalahan saat kalibrasi pH", Effect.setCalibrating false] := by
  constructor
  · rw [handlePhCalibration_of_valid _ _ _ validInputs_7abc_7]
    simp only [parseFloat_7abc, parseFloat_7]
    rfl
  · rw [handlePhCalibration_of_valid _ _ _ validInputs_above_14]
    simp only [parseFloat_above_14, parseFloat_7]
    rfl

/-- C2: the three validation checks are applied in the order (a) both fields
non-empty, (b) both parse as numbers, (c) both numbers in `[0, 14]`, each with
its own message: for every input the handler shows the message of the first
check, in this order, that the input fails and does nothing else, and an input
that fails none proceeds to submission (sets `isCalibrating`, posts the two
parsed numbers). -/
theorem handlePhCalibration_validation_order (numberToString : ℚ → String)
    (s : PhCalibration) (remote : JSNum → JSNum → RemoteOutcome) :
    (Check.bothNonEmpty.message ≠ Check.bothNumbers.message ∧
      Check.bothNonEmpty.message ≠ Check.bothInRange.message ∧
      Check.bothNumbers.message ≠ Check.bothInRange.message) ∧
    handlePhCalibration numberToString s remote =
      match firstFailedCheck s.referencePh s.currentPh with
      | some c => [Effect.alert c.message]
      | none =>
        [Effect.setCalibrating true,
          Effect.post (parseFloat s.referencePh) (parseFloat s.currentPh)]
          ++ afterResponse numberToString
            (remote (parseFloat s.referencePh) (parseFloat s.currentPh))
          ++ [Effect.setCalibrating false] := by
  refine ⟨⟨by decide, by decide, by decide⟩, ?_⟩
  by_cases ha : s.referencePh = "" ∨ s.currentPh = ""
  · have hf : firstFailedCheck s.referencePh s.currentPh = some Check.bothNonEmpty := by
      rcases ha with ha | ha <;> simp [firstFailedCheck, Check.passes, ha]
    rw [hf]
    simp [handlePhCalibration, ha, Check.message]
  · have ha' := ha
    simp only [not_or] at ha'
    by_cases hb : ((parseFloat s.referencePh).isNaN || (parseFloat s.currentPh).isNaN) = true
    · have hf : firstFailedCheck s.referencePh s.currentPh = some Check.bothNumbers := by
        simp only [Bool.or_eq_true] at hb
        rcases hb with hb | hb <;>
          simp [firstFailedCheck, Check.passes, ha'.1, ha'.2, hb, List.find?]
      rw [hf]
      simp only [handlePhCalibration, ha, hb, if_true, if_false, Check.message]
    · have hb' := hb
      simp only [Bool.or_eq_true, not_or, Bool.not_eq_true] at hb'
      by_cases hv : validInputs s = true
      · have hf : firstFailedCheck s.referencePh s.currentPh = none := by
          have hv' := hv
          simp only [validInputs, Bool.and_eq_true] at hv'
          simp [firstFailedCheck, Check.passes, ha'.1, ha'.2, hb'.1, hb'.2, hv'.1, hv'.2,
            List.find?]
        rw [hf]
        exact handlePhCalibration_of_valid numberToString s remote hv
      · have hv' : validInputs s = false := by simpa using hv
        have hf : firstFailedCheck s.referencePh s.currentPh = some Check.bothInRange := by
          have hv2 := hv'
          simp only [validInputs, Bool.and_eq_false_iff] at hv2
          rcases hv2 with hv2 | hv2 <;>
            simp [firstFailedCheck, Check.passes, ha'.1, ha'.2, hb'.1, hb'.2, hv2, List.find?]
        rw [hf]
        have hc : ((parseFloat s.referencePh).lt (JSNum.num 0) ||
            (parseFloat s.referencePh).gt (JSNum.num 14) ||
            (parseFloat s.currentPh).lt (JSNum.num 0) ||
            (parseFloat s.currentPh).gt (JSNum.num 14)) = true := by
          simp only [validInputs, Bool.and_eq_false_iff, inPhRange_false_iff, hb'.1, hb'.2,
            Bool.false_eq_true, false_or] at hv'
          simp only [Bool.or_eq_true]
          tauto
        simp [handlePhCalibration, ha, hb'.1, hb'.2, hc, Check.message]

/-- C3, as the code has it: for inputs that pass validation (both parse to
numbers in `[0, 14]`), the request carries exactly the two parsed numbers
whatever the remote answers; the handler computes no offset: on a successful
calibration it shows the `data.offset` of the response, with `toFixed(3)`, and
clears the form; and the preview under the button shows the binary64
difference of the two parsed numbers, with `toFixed(3)`. -/
theorem handlePhCalibration_offset (numberToString : ℚ → String) (s : PhCalibration)
    (r c : ℚ) (hr : parseFloat s.referencePh = JSNum.num r)
    (hc : parseFloat s.currentPh = JSNum.num c)
    (hr0 : 0 ≤ r) (hr14 : r ≤ 14) (hc0 : 0 ≤ c) (hc14 : c ≤ 14) :
    (∀ remote, ∃ rest, handlePhCalibration numberToString s remote =
        Effect.setCalibrating true :: Effect.post (JSNum.num r) (JSNum.num c) :: rest ∧
        ∀ r' c', Effect.post r' c' ∉ rest) ∧
      (∀ remote offset, remote (JSNum.num r) (JSNum.num c) = RemoteOutcome.success (some offset) →
        handlePhCalibration numberToString s remote =
          [Effect.setCalibrating true, Effect.post (JSNum.num r) (JSNum.num c),
            Effect.alert ("Kalibrasi pH berhasil!\nOffset: " ++ toFixed3 numberToString offset),
            Effect.resetForm, Effect.setCalibrating false]) ∧
      offsetPreview numberToString s =
        some (toFixed3 numberToString ((JSNum.num r).sub (JSNum.num c))) := by
  have hv : validInputs s = true := by
    simp [validInputs, hr, hc, inPhRange, hr0, hr14, hc0, hc14]
  have hre : s.referencePh ≠ "" := by
    intro he
    rw [he, parseFloat_empty] at hr
    exact JSNum.noConfusion hr
  have hce : s.currentPh ≠ "" := by
    intro he
    rw [he, parseFloat_empty] at hc
    exact JSNum.noConfusion hc
  refine ⟨fun remote => ?_, fun remote offset ho => ?_, ?_⟩
  · rw [handlePhCalibration_of_valid numberToString s remote hv, hr, hc]
    refine ⟨_, rfl, ?_⟩
    intro r' c'
    rcases remote (JSNum.num r) (JSNum.num c) with (_ | o) | m | _ <;>
      simp [afterResponse, calibrationCatch]
  · rw [handlePhCalibration_of_valid numberToString s remote hv, hr, hc, ho]
    rfl
  · simp [offsetPreview, hre, hce, hr, hc]

/-- C3 (amended) at the inputs `"7.00"` and `"6.85"`, with a remote that answers
with the binary64 difference of the two numbers: the payload is `7` and the
binary64 number for `6.85`, and the offset shown, like the preview, is `0.150`. -/
theorem handlePhCalibration_offset_witness :
    handlePhCalibration unusedNumberToString ⟨"7.00", "6.85", false⟩
        (fun a b => RemoteOutcome.success (some (a.sub b))) =
      [Effect.setCalibrating true,
        Effect.post (JSNum.num 7) (JSNum.num (3856207180935987 / 562949953421312)),
        Effect.alert "Kalibrasi pH berhasil!\nOffset: 0.150",
        Effect.resetForm, Effect.setCalibrating false] ∧
      offsetPreview unusedNumberToString ⟨"7.00", "6.85", false⟩ = some "0.150" := by
  have h := handlePhCalibration_offset unusedNumberToString ⟨"7.00", "6.85", false⟩ 7
    (3856207180935987 / 562949953421312) parseFloat_7_00 parseFloat_6_85 (by norm_num)
    (by norm_num) (by norm_num) (by norm_num)
  have h2 := h.2.1 (fun a b => RemoteOutcome.success (some (a.sub b))) _ rfl
  have h3 := h.2.2
  rw [sub_7_6_85, toFixed3_offset_example] at h2 h3
  exact ⟨h2, h3⟩

/-- C3 refuted as stated: with the inputs `"7.00"` and `"6.85"` and a response
`{ success: true, data: { offset: 1 } }`, the offset shown to the operator is
`1.000`, the one of the response, while the difference of the two inputs,
shown by the preview, is `0.150`. -/
theorem shown_offset_is_the_response_offset :
    handlePhCalibration unusedNumberToString ⟨"7.00", "6.85", false⟩
        (fun _ _ => RemoteOutcome.success (some (JSNum.num 1))) =
      [Effect.setCalibrating true,
        Effect.post (JSNum.num 7) (JSNum.num (3856207180935987 / 562949953421312)),
        Effect.alert "Kalibrasi pH berhasil!\nOffset: 1.000",
        Effect.resetForm, Effect.setCalibrating false] ∧
      offsetPreview unusedNumberToString ⟨"7.00", "6.85", false⟩ = some "0.150" := by
  constructor
  · rw [handlePhCalibration_of_valid _ _ _ validInputs_7_00_6_85]
    simp only [parseFloat_7_00, parseFloat_6_85, afterResponse, toFixed3_one]
    rfl
  · have hp : offsetPreview unusedNumberToString ⟨"7.00", "6.85", false⟩ =
        some (toFixed3 unusedNumberToString
          ((parseFloat "7.00").sub (parseFloat "6.85"))) := by
      simp [offsetPreview]
    rw [hp, parseFloat_7_00, parseFloat_6_85, sub_7_6_85, toFixed3_offset_example]

/-- C4, as the code has it: after `handlePhCalibration` has finished, the step
that clears the form has been performed if and only if the remote call was
made and returned `success = true` together with a number `data.offset`, and
then both fields are the empty string; on every other path (validation
rejection, a response with `success = false`, a response with `success = true`
and no number `data.offset`, a rejected request) both fields have exactly the
values they had before. -/
theorem handlePhCalibration_form_cleared_iff_shown (numberToString : ℚ → String)
    (s : PhCalibration) (remote : JSNum → JSNum → RemoteOutcome) :
    decide (Effect.resetForm ∈ handlePhCalibration numberToString s remote) =
        calibrationShown s remote ∧
      ((afterCalibration numberToString s remote).referencePh,
          (afterCalibration numberToString s remote).currentPh) =
        if calibrationShown s remote then ("", "") else (s.referencePh, s.currentPh) := by
  cases hv : validInputs s with
  | false =>
    have hs : calibrationShown s remote = false := by simp [calibrationShown, hv]
    rw [hs]
    rcases handlePhCalibration_of_invalid numberToString s remote hv with e | e | e <;>
      simp [afterCalibration, e, runEffects, Effect.apply]
  | true =>
    have e := handlePhCalibration_of_valid numberToString s remote hv
    simp only [calibrationShown, hv, Bool.true_and, afterCalibration, e]
    rcases remote (parseFloat s.referencePh) (parseFloat s.currentPh) with (_ | o) | m | _ <;>
      simp [afterResponse, calibrationCatch, RemoteOutcome.hasOffset, runEffects, Effect.apply]

/-- C4 refuted as stated: with the inputs `"7.00"` and `"6.85"` and a response
`{ success: true }` without `data.offset`, the remote call returned
`success = true`, yet the form is not cleared: both fields keep their values. -/
theorem success_without_offset_keeps_form :
    calibrationSucceeded ⟨"7.00", "6.85", false⟩ (fun _ _ => RemoteOutcome.success none) = true ∧
      Effect.resetForm ∉ handlePhCalibration unusedNumberToString ⟨"7.00", "6.85", false⟩
        (fun _ _ => RemoteOutcome.success none) ∧
      afterCalibration unusedNumberToString ⟨"7.00", "6.85", false⟩
        (fun _ _ => RemoteOutcome.success none) = ⟨"7.00", "6.85", false⟩ := by
  refine ⟨?_, ?_, ?_⟩
  · simp [calibrationSucceeded, validInputs_7_00_6_85, RemoteOutcome.isSuccess]
  · rw [handlePhCalibration_of_valid _ _ _ validInputs_7_00_6_85]
    simp [afterResponse, calibrationCatch]
  · unfold afterCalibration
    rw [handlePhCalibration_of_valid _ _ _ validInputs_7_00_6_85]
    simp [afterResponse, calibrationCatch, runEffects, Effect.apply]

/-- C5: started from Idle (`isCalibrating` false), `handlePhCalibration` ends
in Idle for every input and every remote outcome; a state it passes through
has `isCalibrating` true only if validation passed and the state lies strictly
between the start and the end of the run, and when validation passes
`isCalibrating` is true from the step after validation until the response has
been received. -/
theorem handlePhCalibration_returns_to_idle (numberToString : ℚ → String)
    (s : PhCalibration) (remote : JSNum → JSNum → RemoteOutcome)
    (hidle : s.isCalibrating = false) :
    (afterCalibration numberToString s remote).isCalibrating = false ∧
      (∀ k s', (trace s (handlePhCalibration numberToString s remote))[k]? = some s' →
        s'.isCalibrating = true →
          validInputs s = true ∧ 0 < k ∧
            k < (handlePhCalibration numberToString s remote).length) ∧
      (validInputs s = true →
        ((trace s (handlePhCalibration numberToString s remote)).map
            PhCalibration.isCalibrating).take 4 =
          [false, true, true, true]) := by
  cases hv : validInputs s with
  | false =>
    rcases handlePhCalibration_of_invalid numberToString s remote hv with e | e | e <;>
      · simp only [afterCalibration, e, runEffects, List.foldl, Effect.apply, trace]
        refine ⟨hidle, ?_, fun h => Bool.noConfusion h⟩
        intro k s' hk hs'
        rcases k with _ | _ | k <;> simp at hk <;> subst hk <;> simp [hidle] at hs'
  | true =>
    have e := handlePhCalibration_of_valid numberToString s remote hv
    simp only [afterCalibration, e]
    rcases remote (parseFloat s.referencePh) (parseFloat s.currentPh) with (_ | o) | m | _ <;>
      · simp only [afterResponse, calibrationCatch, runEffects, List.foldl, Effect.apply, trace,
          List.cons_append, List.nil_append, List.map, List.take, hidle, List.length, true_and,
          forall_true_left, and_true]
        intro k s' hk hs'
        rcases k with _ | _ | _ | _ | _ | _ | _ | k <;> simp at hk <;> (try subst hk) <;>
          first
          | omega
          | simp [hidle] at hs'

/-- C5 at the inputs `"7.00"` and `"6.85"` with a remote call that fails. -/
theorem handlePhCalibration_returns_to_idle_witness :
    (afterCalibration unusedNumberToString ⟨"7.00", "6.85", false⟩
      (fun _ _ => RemoteOutcome.threw)).isCalibrating = false :=
  (handlePhCalibration_returns_to_idle unusedNumberToString ⟨"7.00", "6.85", false⟩
    (fun _ _ => RemoteOutcome.threw) rfl).1

/-! ## The historical query -/

/-- The answer to a range query holds exactly the rows inside the bounds. -/
theorem RangeQuery.mem_run {α : Type} (q : RangeQuery) (key : α → Timestamp) (rows : List α)
    (row : α) : row ∈ q.run key rows ↔ row ∈ rows ∧ q.gte ≤ key row ∧ key row ≤ q.lte := by
  simp [RangeQuery.run, List.mem_insertionSort, List.mem_filter]

/-- The answer to a range query is a rearrangement of the rows inside the bounds. -/
theorem RangeQuery.run_perm {α : Type} (q : RangeQuery) (key : α → Timestamp) (rows : List α) :
    (q.run key rows).Perm (rows.filter (fun r => decide (q.gte ≤ key r ∧ key r ≤ q.lte))) :=
  List.perm_insertionSort _ _

/-- The answer to an ascending range query is in ascending order of time stamp. -/
theorem RangeQuery.run_sorted {α : Type} (q : RangeQuery) (key : α → Timestamp) (rows : List α)
    (h : q.ascending = true) : (q.run key rows).Sorted (fun a b => key a ≤ key b) := by
  have hs := List.sorted_insertionSort (fun a b => q.before (key a) (key b))
    (rows.filter (fun r => decide (q.gte ≤ key r ∧ key r ≤ q.lte)))
  refine List.Pairwise.imp ?_ hs
  intro a b hab
  simpa [RangeQuery.before, h] using hab

/-- C6: for every date range, `fetchChartData` asks the store for the rows of
`sensors` with time stamp in `[start 00:00:00Z, end 23:59:59Z]`, both bounds
included, in ascending order, and for the rows of `sensor_errors` over the same
window and order; the rows it receives are exactly the stored rows inside the
window, in ascending order; for a single day `D` a row at `D-1 23:59:59Z` is
not among them. -/
theorem fetchChartData_window (toLocaleTimeString : Timestamp → String) (dateRange : DateRange)
    (db : Store) :
    fetchChartData toLocaleTimeString dateRange db.backend =
        [ChartEffect.setIsLoadingCharts true,
          ChartEffect.query
            { table := "sensors", gte := startOfDay dateRange.start,
              lte := endOfDay dateRange.end_, ascending := true },
          ChartEffect.setHistoricalData (formattedData toLocaleTimeString
            ((sensorsQuery dateRange).run SensorRow.created_at db.sensors)),
          ChartEffect.query
            { table := "sensor_errors", gte := startOfDay dateRange.start,
              lte := endOfDay dateRange.end_, ascending := true },
          ChartEffect.consoleLog "sensor error: ",
          ChartEffect.setSensorErrors (formattedErrorData toLocaleTimeString
            ((sensorErrorsQuery dateRange).run SensorErrorRow.created_at db.sensor_errors)),
          ChartEffect.setIsLoadingCharts false] ∧
      (∀ row, row ∈ (sensorsQuery dateRange).run SensorRow.created_at db.sensors ↔
        row ∈ db.sensors ∧ startOfDay dateRange.start ≤ row.created_at ∧
          row.created_at ≤ endOfDay dateRange.end_) ∧
      ((sensorsQuery dateRange).run SensorRow.created_at db.sensors).Sorted
        (fun a b => a.created_at ≤ b.created_at) ∧
      (∀ row, row ∈ (sensorErrorsQuery dateRange).run SensorErrorRow.created_at db.sensor_errors ↔
        row ∈ db.sensor_errors ∧ startOfDay dateRange.start ≤ row.created_at ∧
          row.created_at ≤ endOfDay dateRange.end_) ∧
      ((sensorErrorsQuery dateRange).run SensorErrorRow.created_at db.sensor_errors).Sorted
        (fun a b => a.created_at ≤ b.created_at) ∧
      (∀ (D : Day) (row : SensorRow), row.created_at = endOfDay (D - 1) →
        row ∉ (sensorsQuery { start := D, end_ := D }).run SensorRow.created_at db.sensors) := by
  refine ⟨rfl, fun row => RangeQuery.mem_run _ _ _ _, RangeQuery.run_sorted _ _ _ rfl,
    fun row => RangeQuery.mem_run _ _ _ _, RangeQuery.run_sorted _ _ _ rfl, ?_⟩
  intro D row hrow hmem
  rw [RangeQuery.mem_run] at hmem
  have h := hmem.2.1
  simp only [sensorsQuery, startOfDay, hrow, endOfDay] at h
  linarith

/-- C7: when the query on `sensors` is answered with rows, the series that
`fetchChartData` leaves in `historicalData` has the length and order of the
rows and its `i`-th point carries the `i`-th row's `ph`, `temp`, `ch4` and
`pressure` unchanged, with the clock-time label of that row's time stamp,
whatever the query on `sensor_errors` comes to; likewise `sensorErrors` with
`ph_error`, `ph_delta_error`, `temp_error` and `temp_delta_error` when the
query on `sensor_errors` is answered with rows, whether the query on `sensors`
delivered rows or an error (after a rejected query on `sensors` the second
query is not made). -/
theorem fetchChartData_series (toLocaleTimeString : Timestamp → String) (dateRange : DateRange)
    (backend : Backend) (c : Charts) :
    (∀ rows, backend.sensors (sensorsQuery dateRange) = QueryResponse.ok (some rows) →
      (afterFetchChartData toLocaleTimeString dateRange backend c).historicalData.length
          = rows.length ∧
        ∀ i : ℕ,
          (afterFetchChartData toLocaleTimeString dateRange backend c).historicalData[i]? =
            rows[i]?.map (fun (row : SensorRow) =>
              ({ timestamp := toLocaleTimeString row.created_at, ph := row.ph,
                 temp := row.temp, ch4 := row.ch4, pressure := row.pressure } : SensorPoint))) ∧
    (∀ errors,
      backend.sensor_errors (sensorErrorsQuery dateRange) = QueryResponse.ok (some errors) →
      (backend.sensors (sensorsQuery dateRange)).raises = false →
      (afterFetchChartData toLocaleTimeString dateRange backend c).sensorErrors.length
          = errors.length ∧
        ∀ i : ℕ,
          (afterFetchChartData toLocaleTimeString dateRange backend c).sensorErrors[i]? =
            errors[i]?.map (fun (row : SensorErrorRow) =>
              ({ timestamp := toLocaleTimeString row.created_at, ph_error := row.ph_error,
                 ph_delta_error := row.ph_delta_error, temp_error := row.temp_error,
                 temp_delta_error := row.temp_delta_error } : ErrorPoint))) := by
  constructor
  · intro rows hrows
    have hh : (afterFetchChartData toLocaleTimeString dateRange backend c).historicalData =
        formattedData toLocaleTimeString rows := by
      unfold afterFetchChartData fetchChartData fetchSensorErrors
      rw [hrows]
      rcases backend.sensor_errors (sensorErrorsQuery dateRange) with (_ | d) | m | _ <;>
        simp [chartCatch, ChartEffect.apply]
    rw [hh]
    exact ⟨by simp [formattedData], fun i => by simp [formattedData, List.getElem?_map]⟩
  · intro errors herrors hraises
    have he : (afterFetchChartData toLocaleTimeString dateRange backend c).sensorErrors =
        formattedErrorData toLocaleTimeString errors := by
      unfold afterFetchChartData fetchChartData fetchSensorErrors
      rw [herrors]
      rcases hs : backend.sensors (sensorsQuery dateRange) with (_ | d) | m | _ <;>
        simp [hs, QueryResponse.raises] at hraises ⊢ <;>
        simp [ChartEffect.apply]
    rw [he]
    exact ⟨by simp [formattedErrorData],
      fun i => by simp [formattedErrorData, List.getElem?_map]⟩

theorem exampleStore_sensors :
    exampleStore.backend.sensors (sensorsQuery { start := 20000, end_ := 20000 }) =
      QueryResponse.ok (some
        [{ created_at := startOfDay 20000 + 28800000000, ph := 7, temp := 30, ch4 := 1,
           pressure := 101 },
         { created_at := startOfDay 20000 + 29100000000, ph := 34 / 5, temp := 30, ch4 := 1,
           pressure := 101 }]) := by
  simp [exampleStore, Store.backend, RangeQuery.run, sensorsQuery, startOfDay, endOfDay,
    List.filter, List.insertionSort, List.orderedInsert, RangeQuery.before]

theorem clockTimeUTC_0800 : clockTimeUTC (startOfDay 20000 + 28800000000) = "08:00:00" := by
  decide

theorem clockTimeUTC_0805 : clockTimeUTC (startOfDay 20000 + 29100000000) = "08:05:00" := by
  decide

theorem exampleBackendErrorsFail_sensors :
    exampleBackendErrorsFail.sensors (sensorsQuery { start := 20000, end_ := 20000 }) =
      QueryResponse.ok (some
        [{ created_at := startOfDay 20000 + 28800000000, ph := 7, temp := 30, ch4 := 1,
           pressure := 101 },
         { created_at := startOfDay 20000 + 29100000000, ph := 34 / 5, temp := 30, ch4 := 1,
           pressure := 101 }]) :=
  exampleStore_sensors

/-- C7 at the example of the specification: readings at 08:00 (pH 7.0) and
08:05 (pH 6.8) of one day, queried for that day with a 24-hour clock in UTC,
give two points labelled `08:00:00` and `08:05:00` with pH 7.0 and 6.8, in that
order; here the query on `sensor_errors` fails. -/
theorem fetchChartData_series_witness :
    (afterFetchChartData clockTimeUTC { start := 20000, end_ := 20000 }
        exampleBackendErrorsFail Charts.initial).historicalData.map
        (fun p => (p.timestamp, p.ph)) =
      [("08:00:00", 7), ("08:05:00", 34 / 5)] := by
  have h := (fetchChartData_series clockTimeUTC { start := 20000, end_ := 20000 }
    exampleBackendErrorsFail Charts.initial).1 _ exampleBackendErrorsFail_sensors
  have h0 := h.2 0
  have h1 := h.2 1
  have hl := h.1
  simp only [List.length_cons, List.length_nil, List.getElem?_cons_zero,
    List.getElem?_cons_succ, Option.map_some', clockTimeUTC_0800, clockTimeUTC_0805] at h0 h1 hl
  generalize (afterFetchChartData clockTimeUTC { start := 20000, end_ := 20000 }
    exampleBackendErrorsFail Charts.initial).historicalData = l at h0 h1 hl
  match l, hl, h0, h1 with
  | [a, b], _, h0, h1 =>
    simp only [List.getElem?_cons_zero, List.getElem?_cons_succ, Option.some.injEq] at h0 h1
    subst h0 h1
    rfl

/-- C8: when the query for a stream does not deliver rows (an error, a rejected
promise or a `data` of `null`), `fetchChartData` leaves the series of that
stream exactly as it was, and `isLoadingCharts` is false once the call has
finished, whatever the two queries came to. -/
theorem fetchChartData_failure_keeps_series (toLocaleTimeString : Timestamp → String)
    (dateRange : DateRange) (backend : Backend) (c : Charts) :
    (afterFetchChartData toLocaleTimeString dateRange backend c).isLoadingCharts = false ∧
      ((backend.sensors (sensorsQuery dateRange)).rows = none →
        (afterFetchChartData toLocaleTimeString dateRange backend c).historicalData =
          c.historicalData) ∧
      ((backend.sensor_errors (sensorErrorsQuery dateRange)).rows = none →
        (afterFetchChartData toLocaleTimeString dateRange backend c).sensorErrors =
          c.sensorErrors) := by
  unfold afterFetchChartData fetchChartData fetchSensorErrors
  rcases hs : backend.sensors (sensorsQuery dateRange) with (_ | d) | m | _ <;>
    rcases he : backend.sensor_errors (sensorErrorsQuery dateRange) with (_ | d') | m' | _ <;>
      simp [QueryResponse.rows, chartCatch, ChartEffect.apply]

/-! ## Overlapping calls and the loading flag -/

theorem fetchChartData_shape (f : Timestamp → String) (r : DateRange) (b : Backend) :
    ∃ mid, fetchChartData f r b =
        ChartEffect.setIsLoadingCharts true :: (mid ++ [ChartEffect.setIsLoadingCharts false]) ∧
      ∀ e ∈ mid, ChartEffect.setsLoading e = false := by
  unfold fetchChartData fetchSensorErrors
  rcases b.sensors (sensorsQuery r) with (_ | d) | m | _ <;>
    rcases b.sensor_errors (sensorErrorsQuery r) with (_ | d') | m' | _ <;>
      exact ⟨_, rfl, by simp [chartCatch, ChartEffect.setsLoading]⟩

theorem ChartEffect.apply_isLoadingCharts (c : Charts) (e : ChartEffect)
    (h : e.setsLoading = false) : (e.apply c).isLoadingCharts = c.isLoadingCharts := by
  cases e <;> simp_all [ChartEffect.apply, ChartEffect.setsLoading]

theorem Pending.tail {e : ChartEffect} {rest : List ChartEffect} (h : Pending (e :: rest)) :
    Pending rest ∧ (rest ≠ [] → e.setsLoading = false) := by
  rcases h with h | ⟨mid, hmid, hno⟩
  · exact absurd h (List.cons_ne_nil _ _)
  · cases mid with
    | nil =>
      simp only [List.nil_append, List.cons.injEq] at hmid
      exact ⟨Or.inl hmid.2, fun hne => absurd hmid.2 hne⟩
    | cons a mid' =>
      simp only [List.cons_append, List.cons.injEq] at hmid
      refine ⟨Or.inr ⟨mid', hmid.2, fun x hx => hno x (List.mem_cons_of_mem _ hx)⟩, fun _ => ?_⟩
      rw [hmid.1]
      exact hno a (List.mem_cons_self _ _)

theorem Session.step_pending (s : Session) (ev : SessionEvent)
    (h : ∀ call ∈ s.calls, Pending call) : ∀ call ∈ (s.step ev).calls, Pending call := by
  cases ev with
  | start f r b =>
    obtain ⟨mid, hshape, hmid⟩ := fetchChartData_shape f r b
    simp only [Session.step, hshape]
    intro call hcall
    rcases List.mem_append.mp hcall with hc | hc
    · exact h call hc
    · rw [List.mem_singleton] at hc
      exact Or.inr ⟨mid, hc, hmid⟩
  | resume i =>
    simp only [Session.step]
    rcases hi : s.calls[i]? with _ | (_ | ⟨e, rest⟩)
    · exact h
    · exact h
    · intro call hcall
      rcases List.mem_or_eq_of_mem_set hcall with hc | hc
      · exact h call hc
      · rw [hc]
        exact (Pending.tail (h _ (List.getElem?_mem hi))).1

theorem Session.run_pending (s : Session) (events : List SessionEvent)
    (h : ∀ call ∈ s.calls, Pending call) : ∀ call ∈ (s.run events).calls, Pending call := by
  induction events generalizing s with
  | nil => exact h
  | cons ev rest ih => exact ih (s.step ev) (Session.step_pending s ev h)

theorem Session.step_completed_le (s : Session) (ev : SessionEvent) :
    s.completed ≤ (s.step ev).completed := by
  cases ev with
  | start f r b =>
    simp only [Session.step]
    split <;> exact le_rfl
  | resume i =>
    simp only [Session.step]
    split
    · dsimp only
      split_ifs <;> omega
    · exact le_rfl

theorem Session.run_completed_le (s : Session) (events : List SessionEvent) :
    s.completed ≤ (s.run events).completed := by
  induction events generalizing s with
  | nil => exact le_rfl
  | cons ev rest ih => exact le_trans (Session.step_completed_le s ev) (ih (s.step ev))

theorem Session.step_start_loading (s : Session) (f : Timestamp → String) (r : DateRange)
    (b : Backend) : (s.step (SessionEvent.start f r b)).charts.isLoadingCharts = true := by
  obtain ⟨mid, hshape, -⟩ := fetchChartData_shape f r b
  simp [Session.step, hshape, ChartEffect.apply]

theorem Session.step_keeps_loading (s : Session) (ev : SessionEvent)
    (h : ∀ call ∈ s.calls, Pending call) (hl : s.charts.isLoadingCharts = true)
    (hc : (s.step ev).completed = s.completed) :
    (s.step ev).charts.isLoadingCharts = true := by
  cases ev with
  | start f r b => exact Session.step_start_loading s f r b
  | resume i =>
    simp only [Session.step] at hc ⊢
    rcases hi : s.calls[i]? with _ | (_ | ⟨e, rest⟩)
    · exact hl
    · exact hl
    · rw [hi] at hc
      dsimp only at hc ⊢
      have hrest : rest ≠ [] := by
        intro hr
        rw [if_pos hr] at hc
        omega
      rw [ChartEffect.apply_isLoadingCharts _ _
        ((Pending.tail (h _ (List.getElem?_mem hi))).2 hrest)]
      exact hl

theorem Session.run_keeps_loading (s : Session) (events : List SessionEvent)
    (h : ∀ call ∈ s.calls, Pending call) (hl : s.charts.isLoadingCharts = true)
    (hc : (s.run events).completed = s.completed) :
    (s.run events).charts.isLoadingCharts = true := by
  induction events generalizing s with
  | nil => exact hl
  | cons ev rest ih =>
    have h1 := Session.step_completed_le s ev
    have h2 := Session.run_completed_le (s.step ev) rest
    have hrun : s.run (ev :: rest) = (s.step ev).run rest := rfl
    rw [hrun] at hc ⊢
    have hstep : (s.step ev).completed = s.completed := by omega
    exact ih (s.step ev) (Session.step_pending s ev h)
      (Session.step_keeps_loading s ev h hl hstep) (by omega)

/-- C9, as the code has it: in every state reached from the mounted dashboard
by any interleaving of starts of `fetchChartData` and steps of the calls in
flight, if a call has started and no call has run to its end since that start,
then `isLoadingCharts` is true. -/
theorem isLoadingCharts_until_a_call_finishes (before after : List SessionEvent)
    (f : Timestamp → String) (r : DateRange) (b : Backend)
    (hquiet : ((Session.initial.run (before ++ [SessionEvent.start f r b])).run after).completed
      = (Session.initial.run (before ++ [SessionEvent.start f r b])).completed) :
    ((Session.initial.run (before ++ [SessionEvent.start f r b])).run after).charts.isLoadingCharts
      = true := by
  have hsplit : Session.initial.run (before ++ [SessionEvent.start f r b]) =
      (Session.initial.run before).step (SessionEvent.start f r b) := by
    simp [Session.run, List.foldl_append]
  have hinit : ∀ call ∈ Session.initial.calls, Pending call := by
    simp [Session.initial]
  have hpend := Session.run_pending _ (before ++ [SessionEvent.start f r b]) hinit
  refine Session.run_keeps_loading _ after hpend ?_ hquiet
  rw [hsplit]
  exact Session.step_start_loading _ f r b

/-- C9 (amended) at a run: a call starts, a second call starts while the first
is in flight, and the first performs one further step; the flag is true. -/
theorem isLoadingCharts_until_a_call_finishes_witness :
    ((Session.initial.run
        ([SessionEvent.start clockTimeUTC { start := 20000, end_ := 20000 } exampleStore.backend]
          ++ [SessionEvent.start clockTimeUTC { start := 20000, end_ := 20000 }
            exampleStore.backend])).run
        [SessionEvent.resume 0]).charts.isLoadingCharts = true :=
  isLoadingCharts_until_a_call_finishes _ [SessionEvent.resume 0] _ _ _ rfl

/-- C9 refuted as stated: a call of `fetchChartData` starts, a second one starts
before the first has resolved, and the first runs to its end (six further
steps, both of its queries answered with rows). The second call is still in
flight, yet `isLoadingCharts` is false. -/
theorem isLoadingCharts_false_while_in_flight :
    (Session.initial.run
        [SessionEvent.start clockTimeUTC { start := 20000, end_ := 20000 } exampleStore.backend,
          SessionEvent.start clockTimeUTC { start := 20000, end_ := 20000 } exampleStore.backend,
          SessionEvent.resume 0, SessionEvent.resume 0, SessionEvent.resume 0,
          SessionEvent.resume 0, SessionEvent.resume 0, SessionEvent.resume 0]).inFlight = 1 ∧
      (Session.initial.run
        [SessionEvent.start clockTimeUTC { start := 20000, end_ := 20000 } exampleStore.backend,
          SessionEvent.start clockTimeUTC { start := 20000, end_ := 20000 } exampleStore.backend,
          SessionEvent.resume 0, SessionEvent.resume 0, SessionEvent.resume 0,
          SessionEvent.resume 0, SessionEvent.resume 0, SessionEvent.resume 0]
        ).charts.isLoadingCharts = false := by
  constructor
  · decide
  · rfl

/-! ## The state store under push and pull updates -/

theorem applySensorUpdate_eq (sensorData : SensorData) (u : StoreUpdate SensorRow) :
    applySensorUpdate sensorData u =
      match u.applied with
      | some row => SensorData.ofRow row
      | none => sensorData := by
  rcases u with row | ((_ | _ | ⟨row, rest⟩) | m | _) <;> rfl

theorem applyActuatorUpdate_eq (actuators : Actuators) (u : StoreUpdate ActuatorRow) :
    applyActuatorUpdate actuators u =
      match u.applied with
      | some row => Actuators.ofRow row
      | none => actuators := by
  rcases u with row | ((_ | _ | ⟨row, rest⟩) | m | _) <;> rfl

/-- C10, as the code has it: after any sequence of completed push events and
pull results for one record kind, `sensorData` (respectively `actuators`) holds
the fields of the row applied last, the row of the last push event or
non-empty error-free pull result in completion order, whatever the time stamps
of the rows; when no update applied a row it is unchanged. -/
theorem final_value_is_last_applied (sensorData : SensorData)
    (updates : List (StoreUpdate SensorRow)) (actuators : Actuators)
    (actuatorUpdates : List (StoreUpdate ActuatorRow)) :
    (applySensorUpdates sensorData updates =
        match (updates.filterMap StoreUpdate.applied).getLast? with
        | some row => SensorData.ofRow row
        | none => sensorData) ∧
      (applyActuatorUpdates actuators actuatorUpdates =
        match (actuatorUpdates.filterMap StoreUpdate.applied).getLast? with
        | some row => Actuators.ofRow row
        | none => actuators) := by
  constructor
  · induction updates using List.reverseRecOn with
    | nil => rfl
    | append_singleton us u ih =>
      simp only [applySensorUpdates, List.foldl_append, List.foldl_cons, List.foldl_nil,
        List.filterMap_append, List.filterMap_cons, List.filterMap_nil] at ih ⊢
      rw [applySensorUpdate_eq]
      cases hu : u.applied with
      | none => simpa using ih
      | some row => simp
  · induction actuatorUpdates using List.reverseRecOn with
    | nil => rfl
    | append_singleton us u ih =>
      simp only [applyActuatorUpdates, List.foldl_append, List.foldl_cons, List.foldl_nil,
        List.filterMap_append, List.filterMap_cons, List.filterMap_nil] at ih ⊢
      rw [applyActuatorUpdate_eq]
      cases hu : u.applied with
      | none => simpa using ih
      | some row => simp

/-- C10 refuted as stated: a push event carrying the reading of second 2
completes, then a pull result carrying the older reading of second 1
completes. The final `sensorData` holds the older reading, not the one with the
latest time stamp; likewise for `actuators`. -/
theorem stale_pull_overwrites_newer_push :
    olderReading.created_at < newerReading.created_at ∧
      applySensorUpdates SensorData.initial
        [StoreUpdate.push newerReading,
          StoreUpdate.pull (QueryResponse.ok (some [olderReading]))] =
        SensorData.ofRow olderReading ∧
      SensorData.ofRow olderReading ≠ SensorData.ofRow newerReading ∧
      olderActuatorRow.updated_at < newerActuatorRow.updated_at ∧
      applyActuatorUpdates Actuators.initial
        [StoreUpdate.push newerActuatorRow,
          StoreUpdate.pull (QueryResponse.ok (some [olderActuatorRow]))] =
        Actuators.ofRow olderActuatorRow ∧
      Actuators.ofRow olderActuatorRow ≠ Actuators.ofRow newerActuatorRow := by
  refine ⟨by decide, rfl, ?_, by decide, rfl, ?_⟩
  · simp [SensorData.ofRow, olderReading, newerReading]
  · simp [Actuators.ofRow, olderActuatorRow, newerActuatorRow]

/-! ## Pulls of the latest row -/

/-- C12: for every prior state, `fetchSensorData` and `fetchActuators` leave
`sensorData`, respectively `actuators`, exactly as it was when the query
reports an error, is rejected, or delivers `null` or no row; the value is
replaced only when the answer carries at least one row without error, and then
by the fields of the first row. -/
theorem fetch_failure_keeps_last_known_state (sensorData : SensorData) (actuators : Actuators)
    (sensorResponse : QueryResponse SensorRow) (actuatorResponse : QueryResponse ActuatorRow) :
    ((sensorResponse.rows = none ∨ sensorResponse.rows = some []) →
        fetchSensorData sensorResponse sensorData = sensorData) ∧
      (∀ row rest, sensorResponse.rows = some (row :: rest) →
        fetchSensorData sensorResponse sensorData = SensorData.ofRow row) ∧
      ((actuatorResponse.rows = none ∨ actuatorResponse.rows = some []) →
        fetchActuators actuatorResponse actuators = actuators) ∧
      (∀ row rest, actuatorResponse.rows = some (row :: rest) →
        fetchActuators actuatorResponse actuators = Actuators.ofRow row) ∧
      (sensorResponse.isError = true → sensorResponse.rows = none) ∧
      (actuatorResponse.isError = true → actuatorResponse.rows = none) := by
  refine ⟨?_, ?_, ?_, ?_, ?_, ?_⟩
  · rcases sensorResponse with (_ | _ | ⟨row, rest⟩) | m | _ <;>
      simp [QueryResponse.rows, fetchSensorData]
  · intro row rest
    rcases sensorResponse with (_ | _ | ⟨row', rest'⟩) | m | _ <;>
      simp [QueryResponse.rows, fetchSensorData]
    intro h _
    rw [h]
  · rcases actuatorResponse with (_ | _ | ⟨row, rest⟩) | m | _ <;>
      simp [QueryResponse.rows, fetchActuators]
  · intro row rest
    rcases actuatorResponse with (_ | _ | ⟨row', rest'⟩) | m | _ <;>
      simp [QueryResponse.rows, fetchActuators]
    intro h _
    rw [h]
  · rcases sensorResponse with (_ | _) | m | _ <;>
      simp [QueryResponse.rows, QueryResponse.isError]
  · rcases actuatorResponse with (_ | _) | m | _ <;>
      simp [QueryResponse.rows, QueryResponse.isError]

/-! ## Push events -/

/-- C13, as the code has it: for a payload that carries a new record the
handlers of `sensor-changes` and `actuator-changes` complete without raising and
replace `sensorData`, respectively `actuators`, by the fields of the record; for
a payload whose new record is missing they raise a `TypeError` before any
update, so the state store is left unchanged, and a handler invoked afterwards
for a payload that carries a record processes it as usual. -/
theorem push_handlers_on_payloads (autoRefresh : Bool) (s : StateStore) (row : SensorRow)
    (actuatorRow : ActuatorRow) :
    ((∃ calls, sensorChangesHandler autoRefresh (PushPayload.record row) = Except.ok calls) ∧
        s.after (sensorChangesHandler autoRefresh (PushPayload.record row)) =
          { s with sensorData := SensorData.ofRow row }) ∧
      ((∃ calls, actuatorChangesHandler (PushPayload.record actuatorRow) = Except.ok calls) ∧
        s.after (actuatorChangesHandler (PushPayload.record actuatorRow)) =
          { s with actuators := Actuators.ofRow actuatorRow }) ∧
      (sensorChangesHandler autoRefresh PushPayload.noRecord = Except.error JSError.typeError ∧
        actuatorChangesHandler PushPayload.noRecord = Except.error JSError.typeError) ∧
      (s.after (sensorChangesHandler autoRefresh PushPayload.noRecord) = s ∧
        s.after (actuatorChangesHandler PushPayload.noRecord) = s) ∧
      ((s.after (sensorChangesHandler autoRefresh PushPayload.noRecord)).after
          (sensorChangesHandler autoRefresh (PushPayload.record row)) =
          { s with sensorData := SensorData.ofRow row } ∧
        (s.after (actuatorChangesHandler PushPayload.noRecord)).after
          (actuatorChangesHandler (PushPayload.record actuatorRow)) =
          { s with actuators := Actuators.ofRow actuatorRow }) := by
  cases autoRefresh <;>
    simp [sensorChangesHandler, actuatorChangesHandler, StateStore.after, DashboardCall.apply]

/-- C13 refuted as stated: on a payload whose new record is missing, the
handler of `sensor-changes` and the handler of `actuator-changes` raise a
`TypeError` instead of completing. -/
theorem push_without_record_raises :
    sensorChangesHandler true PushPayload.noRecord = Except.error JSError.typeError ∧
      sensorChangesHandler false PushPayload.noRecord = Except.error JSError.typeError ∧
      actuatorChangesHandler PushPayload.noRecord = Except.error JSError.typeError :=
  ⟨rfl, rfl, rfl⟩

/-- C14: a sensor insert with live-mode on replaces `sensorData` and calls
`fetchChartData`; with live-mode off it replaces `sensorData` only; an actuator
update never calls `fetchChartData`, whatever the mode and the payload; and no
sensor payload makes the handler call `fetchChartData` with live-mode off. -/
theorem fetchChartData_on_push_iff_sensor_insert_live (autoRefresh : Bool) (row : SensorRow)
    (sensorPayload : PushPayload SensorRow) (actuatorPayload : PushPayload ActuatorRow) :
    sensorChangesHandler true (PushPayload.record row) =
        Except.ok [DashboardCall.setSensorData (SensorData.ofRow row),
          DashboardCall.fetchChartData] ∧
      sensorChangesHandler false (PushPayload.record row) =
        Except.ok [DashboardCall.setSensorData (SensorData.ofRow row)] ∧
      callsFetchChartData (sensorChangesHandler autoRefresh (PushPayload.record row)) =
        autoRefresh ∧
      callsFetchChartData (sensorChangesHandler false sensorPayload) = false ∧
      callsFetchChartData (actuatorChangesHandler actuatorPayload) = false := by
  refine ⟨rfl, rfl, ?_, ?_, ?_⟩
  · cases autoRefresh <;> simp [sensorChangesHandler, callsFetchChartData]
  · cases sensorPayload <;> simp [sensorChangesHandler, callsFetchChartData]
  · cases actuatorPayload <;> simp [actuatorChangesHandler, callsFetchChartData]

/-! ## The initial load of `Home` -/

/-- C18: for every combination of answers to the three queries of
`fetchInitialData`, if at least one reports an error then `sensorData`,
`actuator` and `isAuto` are all unchanged, also those whose own query answered
with rows; if all three answer without error, each of the three is replaced
exactly when its own answer holds at least one row. -/
theorem fetchInitialData_all_or_nothing (sensors actuators : QueryResponse TypedRow)
    (control : QueryResponse ControlModeRow) (s : Home) :
    ((sensors.isError = true ∨ actuators.isError = true ∨ control.isError = true) →
        fetchInitialData sensors actuators control s = s) ∧
      ∀ ds da dc, sensors = QueryResponse.ok ds → actuators = QueryResponse.ok da →
        control = QueryResponse.ok dc →
        fetchInitialData sensors actuators control s =
          { sensorData :=
              match ds with
              | some (r :: rs) => formatByType (r :: rs)
              | _ => s.sensorData
            actuator :=
              match da with
              | some (a :: rest) => formatByType (a :: rest)
              | _ => s.actuator
            isAuto :=
              match dc with
              | some (c :: _) => c.is_auto
              | _ => s.isAuto } := by
  constructor
  · intro h
    rcases sensors with ds | m | _ <;> rcases actuators with da | m' | _ <;>
      rcases control with dc | m'' | _ <;>
        simp_all [QueryResponse.isError, fetchInitialData]
  · intro ds da dc hs ha hc
    subst hs ha hc
    rfl

/-- The first row of the answer to a query for the latest row is a stored row
whose time stamp no stored row exceeds. -/
theorem LatestQuery.run_limit_one {α : Type} (q : LatestQuery) (key : α → Timestamp)
    (rows : List α) (hq : q.limit = some 1) (hne : rows ≠ []) :
    ∃ row, q.run key rows = [row] ∧ row ∈ rows ∧ ∀ r ∈ rows, key r ≤ key row := by
  haveI : IsTotal α (fun a b => key b ≤ key a) := ⟨fun a b => le_total (key b) (key a)⟩
  haveI : IsTrans α (fun a b => key b ≤ key a) := ⟨fun a b c h₁ h₂ => le_trans h₂ h₁⟩
  have hsorted := List.sorted_insertionSort (fun a b => key b ≤ key a) rows
  have hperm := List.perm_insertionSort (fun a b => key b ≤ key a) rows
  rcases hl : rows.insertionSort (fun a b => key b ≤ key a) with _ | ⟨row, rest⟩
  · rw [hl] at hperm
    exact absurd hperm.symm.eq_nil hne
  · rw [hl] at hsorted hperm
    refine ⟨row, ?_, hperm.subset (List.mem_cons_self _ _), ?_⟩
    · simp [LatestQuery.run, hq, hl]
    · intro r hr
      rcases List.mem_cons.mp (hperm.symm.subset hr) with h | h
      · rw [h]
      · exact List.rel_of_sorted_cons hsorted r h

/-- The pull of `Dashboard` holds the latest reading: against a store with at
least one reading, `fetchSensorData` sets `sensorData` to the fields of a stored
reading whose `created_at` no stored reading exceeds. -/
theorem fetchSensorData_latest (rows : List SensorRow) (sensorData : SensorData)
    (hne : rows ≠ []) :
    ∃ row ∈ rows, (∀ r ∈ rows, r.created_at ≤ row.created_at) ∧
      fetchSensorData
        (QueryResponse.ok (some (latestSensorQuery.run SensorRow.created_at rows))) sensorData =
        SensorData.ofRow row := by
  obtain ⟨row, hrun, hmem, hmax⟩ :=
    LatestQuery.run_limit_one latestSensorQuery SensorRow.created_at rows rfl hne
  exact ⟨row, hmem, hmax, by rw [hrun]; rfl⟩

theorem JSObject.set_apply (obj : JSObject) (key : String) (value : ℚ) (k : String) :
    obj.set key value k = if k = key then some value else obj k := rfl

/-- The loop of `fetchInitialData` leaves, for each quantity, the value of the
last row of that quantity in the order the rows were delivered. -/
theorem formatByType_apply (rows : List TypedRow) (k : String) :
    formatByType rows k =
      ((rows.filter (fun r => decide (r.type = k))).getLast?).map TypedRow.value := by
  induction rows using List.reverseRecOn with
  | nil => rfl
  | append_singleton rs r ih =>
    unfold formatByType at ih ⊢
    rw [List.foldl_append, List.foldl_cons, List.foldl_nil, JSObject.set_apply, ih,
      List.filter_append]
    by_cases h : r.type = k
    · simp [List.filter, h]
    · have h' : ¬ k = r.type := fun e => h e.symm
      simp [List.filter, h, h']

/-- C11, at the failing input: the store holds two readings of `ph`, value 6 at
second 1 and value 7 at second 2, and two rows of `pump_acid`, value 0 at second
1 and value 255 at second 2. The queries of `fetchInitialData` deliver the newer
row first, the loop over the rows lets the later row overwrite the earlier one,
and `Home` ends with `ph` = 6 and `pump_acid` = 0, the values of the oldest
rows, not those of the rows with the greatest time stamp. -/
theorem fetchInitialData_keeps_oldest_value :
    homeSensorsQuery.run TypedRow.timestamp twoPhReadings =
        [{ timestamp := 2000000, type := "ph", value := 7 },
          { timestamp := 1000000, type := "ph", value := 6 }] ∧
      (fetchInitialData
        (QueryResponse.ok (some (homeSensorsQuery.run TypedRow.timestamp twoPhReadings)))
        (QueryResponse.ok (some (homeActuatorsQuery.run TypedRow.timestamp twoPumpRows)))
        (QueryResponse.ok (some [])) Home.initial).sensorData "ph" = some 6 ∧
      (fetchInitialData
        (QueryResponse.ok (some (homeSensorsQuery.run TypedRow.timestamp twoPhReadings)))
        (QueryResponse.ok (some (homeActuatorsQuery.run TypedRow.timestamp twoPumpRows)))
        (QueryResponse.ok (some [])) Home.initial).actuator "pump_acid" = some 0 := by
  have hs : homeSensorsQuery.run TypedRow.timestamp twoPhReadings =
      [{ timestamp := 2000000, type := "ph", value := 7 },
        { timestamp := 1000000, type := "ph", value := 6 }] := by
    simp [homeSensorsQuery, LatestQuery.run, twoPhReadings, List.insertionSort,
      List.orderedInsert]
  have ha : homeActuatorsQuery.run TypedRow.timestamp twoPumpRows =
      [{ timestamp := 2000000, type := "pump_acid", value := 255 },
        { timestamp := 1000000, type := "pump_acid", value := 0 }] := by
    simp [homeActuatorsQuery, LatestQuery.run, twoPumpRows, List.insertionSort,
      List.orderedInsert]
  rw [hs, ha]
  refine ⟨rfl, ?_, ?_⟩ <;>
    simp [fetchInitialData, formatByType, JSObject.set, JSObject.empty]

/-- C17: in every state of `Home` the controls rendered are the five actuators
`pump_acid`, `pump_base`, `heater`, `solenoid`, `stirrer`, and each is disabled
exactly when `isAuto` is true; `isAuto` starts as true; and after a load in
which no query failed and the store holds a control-mode record, `isAuto` is the
`is_auto` of a stored record whose `updated_at` no stored record exceeds. -/
theorem controls_disabled_iff_isAuto (s : Home) (sensors actuators : Option (List TypedRow))
    (modes : List ControlModeRow) (hne : modes ≠ []) :
    (s.controls.map ActuatorControlProps.actuatorKey =
        ["pump_acid", "pump_base", "heater", "solenoid", "stirrer"] ∧
      ∀ c ∈ s.controls, (c.disabled = true ↔ s.isAuto = true)) ∧
      Home.initial.isAuto = true ∧
      ∃ latest ∈ modes, (∀ r ∈ modes, r.updated_at ≤ latest.updated_at) ∧
        (fetchInitialData (QueryResponse.ok sensors) (QueryResponse.ok actuators)
          (QueryResponse.ok (some (homeControlQuery.run ControlModeRow.updated_at modes)))
          s).isAuto = latest.is_auto := by
  refine ⟨⟨rfl, ?_⟩, rfl, ?_⟩
  · intro c hc
    simp only [Home.controls, List.mem_cons, List.mem_singleton, List.not_mem_nil,
      or_false] at hc
    rcases hc with h | h | h | h | h <;> rw [h]
  · obtain ⟨latest, hrun, hmem, hmax⟩ :=
      LatestQuery.run_limit_one homeControlQuery ControlModeRow.updated_at modes rfl hne
    exact ⟨latest, hmem, hmax, by rw [hrun]; rfl⟩

/-- C17 at a store with two control-mode records, automatic at second 1 and
manual at second 2: after the load `isAuto` is false, the mode of the later
record, and the five controls are enabled. -/
theorem controls_disabled_iff_isAuto_witness :
    (fetchInitialData (QueryResponse.ok none) (QueryResponse.ok none)
        (QueryResponse.ok (some (homeControlQuery.run ControlModeRow.updated_at
          twoControlModes))) Home.initial).isAuto = false := by
  obtain ⟨-, -, latest, hmem, hmax, h⟩ :=
    controls_disabled_iff_isAuto Home.initial none none twoControlModes (by decide)
  rw [h]
  simp only [twoControlModes, List.mem_cons, List.mem_singleton, List.not_mem_nil,
    or_false] at hmem
  rcases hmem with hm | hm
  · have := hmax { updated_at := 2000000, is_auto := false } (by simp [twoControlModes])
    rw [hm] at this
    exact absurd this (by decide)
  · rw [hm]

/-! ## The refresh timers -/

theorem Scheduler.mounted_consistent : Scheduler.mounted.Consistent := by
  right
  refine ⟨rfl, 0, 1, by decide, ?_, ?_, rfl, rfl, Or.inr rfl⟩ <;>
    simp [Scheduler.mounted, Scheduler.chartEffectBody, Scheduler.actuatorEffectBody]

theorem Scheduler.step_consistent (t : Scheduler) (ev : SchedulerEvent) (h : t.Consistent) :
    (t.step ev).Consistent := by
  obtain ⟨auto, active, cc, ac, n⟩ := t
  rcases h with ⟨h1, h2, h3, h4⟩ | ⟨h1, c, a, hca, hc, ha, h3, h4, h5⟩
  · simp only at h1 h2 h3 h4
    subst h1 h2 h3 h4
    cases ev
    · right
      refine ⟨rfl, n, n + 1, by omega, ?_, ?_, rfl, rfl, Or.inr rfl⟩ <;>
        simp only [Scheduler.step, Scheduler.chartEffectCleanup, Scheduler.actuatorEffectCleanup,
          Scheduler.chartEffectBody, Scheduler.actuatorEffectBody, Bool.not_false, if_true] <;>
        omega
    · left
      simp [Scheduler.step, Scheduler.chartEffectCleanup, Scheduler.chartEffectBody]
    · left
      simp [Scheduler.step, Scheduler.actuatorEffectCleanup, Scheduler.actuatorEffectBody]
  · simp only at h1 hc ha h3 h4 h5
    subst h1 h3 h4
    have hac : a ≠ c := fun e => hca e.symm
    cases ev
    · left
      rcases h5 with h5 | h5 <;> subst h5 <;>
        simp [Scheduler.step, Scheduler.chartEffectCleanup, Scheduler.actuatorEffectCleanup,
          Scheduler.chartEffectBody, Scheduler.actuatorEffectBody, clearInterval, hca, hac]
    · right
      refine ⟨rfl, n, a, by omega, ?_, ?_, rfl, rfl, Or.inl ?_⟩
      · simp [Scheduler.step, Scheduler.chartEffectCleanup, Scheduler.chartEffectBody]
      · simp only [Scheduler.step, Scheduler.chartEffectCleanup, Scheduler.chartEffectBody]
        simp only [if_true]
        omega
      · rcases h5 with h5 | h5 <;> subst h5 <;>
          simp [Scheduler.step, Scheduler.chartEffectCleanup, Scheduler.chartEffectBody,
            clearInterval, hca, hac]
    · right
      refine ⟨rfl, c, n, by omega, ?_, ?_, rfl, rfl, Or.inr ?_⟩
      · simp only [Scheduler.step, Scheduler.actuatorEffectCleanup,
          Scheduler.actuatorEffectBody]
        simp only [if_true]
        omega
      · simp [Scheduler.step, Scheduler.actuatorEffectCleanup, Scheduler.actuatorEffectBody]
      · rcases h5 with h5 | h5 <;> subst h5 <;>
          simp [Scheduler.step, Scheduler.actuatorEffectCleanup, Scheduler.actuatorEffectBody,
            clearInterval, hca, hac]

theorem Scheduler.run_consistent (t : Scheduler) (events : List SchedulerEvent)
    (h : t.Consistent) : (t.run events).Consistent := by
  induction events generalizing t with
  | nil => exact h
  | cons ev rest ih => exact ih (t.step ev) (Scheduler.step_consistent t ev h)

theorem Scheduler.chartEffectCleanup_autoRefresh (t : Scheduler) :
    t.chartEffectCleanup.autoRefresh = t.autoRefresh := by
  unfold Scheduler.chartEffectCleanup
  split <;> rfl

theorem Scheduler.actuatorEffectCleanup_autoRefresh (t : Scheduler) :
    t.actuatorEffectCleanup.autoRefresh = t.autoRefresh := by
  unfold Scheduler.actuatorEffectCleanup
  split <;> rfl

theorem Scheduler.chartEffectBody_autoRefresh (t : Scheduler) :
    t.chartEffectBody.autoRefresh = t.autoRefresh := by
  unfold Scheduler.chartEffectBody
  split <;> rfl

theorem Scheduler.actuatorEffectBody_autoRefresh (t : Scheduler) :
    t.actuatorEffectBody.autoRefresh = t.autoRefresh := by
  unfold Scheduler.actuatorEffectBody
  split <;> rfl

/-- A toggle flips live-mode; a re-run of an effect leaves it as it is. -/
theorem Scheduler.step_autoRefresh (t : Scheduler) (ev : SchedulerEvent) :
    (t.step ev).autoRefresh =
      if ev = SchedulerEvent.toggle then !t.autoRefresh else t.autoRefresh := by
  cases ev <;>
    simp [Scheduler.step, Scheduler.chartEffectCleanup_autoRefresh,
      Scheduler.actuatorEffectCleanup_autoRefresh, Scheduler.chartEffectBody_autoRefresh,
      Scheduler.actuatorEffectBody_autoRefresh]

/-- Live-mode after a list of events, from a state with live-mode on: on exactly
when the number of toggles is even. -/
theorem Scheduler.run_autoRefresh (t : Scheduler) (events : List SchedulerEvent)
    (h : t.autoRefresh = true) :
    (t.run events).autoRefresh = decide (events.count SchedulerEvent.toggle % 2 = 0) := by
  induction events using List.reverseRecOn with
  | nil => simpa [Scheduler.run] using h
  | append_singleton es ev ih =>
    have hrun : t.run (es ++ [ev]) = (t.run es).step ev := by
      simp [Scheduler.run, List.foldl_append]
    rw [hrun, Scheduler.step_autoRefresh, ih, List.count_append]
    cases ev
    · simp only [if_true, List.count_singleton, beq_self_eq_true]
      generalize List.count SchedulerEvent.toggle es = k
      by_cases hk : k % 2 = 0
      · have hk' : ¬ ((k + 1) % 2 = 0) := by omega
        simp [hk, hk']
      · have hk' : (k + 1) % 2 = 0 := by omega
        simp [hk, hk']
    · simp
    · simp

/-- What one event does to the timers of a consistent state: an effect that
runs again leaves none of its earlier intervals active, and an effect that does
not run keeps its intervals. -/
theorem Scheduler.step_clears (t : Scheduler) (ev : SchedulerEvent) (h : t.Consistent) :
    (ev ≠ SchedulerEvent.rerunActuatorEffect →
        ∀ i ∈ t.active, i.purpose = Purpose.chart → i ∉ (t.step ev).active) ∧
      (ev ≠ SchedulerEvent.rerunChartEffect →
        ∀ i ∈ t.active, i.purpose = Purpose.actuator → i ∉ (t.step ev).active) ∧
      (ev = SchedulerEvent.rerunChartEffect →
        ∀ i ∈ t.active, i.purpose = Purpose.actuator → i ∈ (t.step ev).active) ∧
      (ev = SchedulerEvent.rerunActuatorEffect →
        ∀ i ∈ t.active, i.purpose = Purpose.chart → i ∈ (t.step ev).active) := by
  obtain ⟨auto, active, cc, ac, n⟩ := t
  rcases h with ⟨h1, h2, h3, h4⟩ | ⟨h1, c, a, hca, hc, ha, h3, h4, h5⟩
  · simp only at h1 h2 h3 h4
    subst h1 h2 h3 h4
    simp
  · simp only at h1 hc ha h3 h4 h5
    subst h1 h3 h4
    have hac : a ≠ c := fun e => hca e.symm
    have hcn : c ≠ n := by omega
    have han : a ≠ n := by omega
    cases ev <;> rcases h5 with h5 | h5 <;> subst h5 <;>
      simp [Scheduler.step, Scheduler.chartEffectCleanup, Scheduler.actuatorEffectCleanup,
        Scheduler.chartEffectBody, Scheduler.actuatorEffectBody, clearInterval, hca, hac, hcn,
        han]

/-- C15: over every sequence of live-mode toggles and re-runs of the timer
effects, starting from the mounted dashboard: live-mode is on exactly after an
even number of toggles, and each toggle flips it; in the state reached, and in
the state after one more event, no chart timer and no actuator timer is active
when live-mode is off (no interval at all), and exactly one timer of each
purpose is active when live-mode is on; an effect that runs again (both on a
toggle, one on its own re-run) leaves none of its earlier intervals active,
because its cleanup clears the interval before the body starts a new one, and
the effect that does not run keeps its interval. -/
theorem timers_match_live_mode (events : List SchedulerEvent) (ev : SchedulerEvent) :
    ((Scheduler.mounted.run events).autoRefresh =
        decide (events.count SchedulerEvent.toggle % 2 = 0) ∧
      ((Scheduler.mounted.run events).step ev).autoRefresh =
        (if ev = SchedulerEvent.toggle then !(Scheduler.mounted.run events).autoRefresh
          else (Scheduler.mounted.run events).autoRefresh)) ∧
    ((Scheduler.mounted.run events).timers Purpose.chart =
        (if (Scheduler.mounted.run events).autoRefresh then 1 else 0) ∧
      (Scheduler.mounted.run events).timers Purpose.actuator =
        (if (Scheduler.mounted.run events).autoRefresh then 1 else 0) ∧
      ((Scheduler.mounted.run events).autoRefresh = false →
        (Scheduler.mounted.run events).active = [])) ∧
    (((Scheduler.mounted.run events).step ev).timers Purpose.chart =
        (if ((Scheduler.mounted.run events).step ev).autoRefresh then 1 else 0) ∧
      ((Scheduler.mounted.run events).step ev).timers Purpose.actuator =
        (if ((Scheduler.mounted.run events).step ev).autoRefresh then 1 else 0) ∧
      (((Scheduler.mounted.run events).step ev).autoRefresh = false →
        ((Scheduler.mounted.run events).step ev).active = [])) ∧
    ((ev ≠ SchedulerEvent.rerunActuatorEffect →
        ∀ i ∈ (Scheduler.mounted.run events).active, i.purpose = Purpose.chart →
          i ∉ ((Scheduler.mounted.run events).step ev).active) ∧
      (ev ≠ SchedulerEvent.rerunChartEffect →
        ∀ i ∈ (Scheduler.mounted.run events).active, i.purpose = Purpose.actuator →
          i ∉ ((Scheduler.mounted.run events).step ev).active) ∧
      (ev = SchedulerEvent.rerunChartEffect →
        ∀ i ∈ (Scheduler.mounted.run events).active, i.purpose = Purpose.actuator →
          i ∈ ((Scheduler.mounted.run events).step ev).active) ∧
      (ev = SchedulerEvent.rerunActuatorEffect →
        ∀ i ∈ (Scheduler.mounted.run events).active, i.purpose = Purpose.chart →
          i ∈ ((Scheduler.mounted.run events).step ev).active)) := by
  have h := Scheduler.run_consistent Scheduler.mounted events Scheduler.mounted_consistent
  have h' := Scheduler.step_consistent _ ev h
  have hcount : ∀ t : Scheduler, t.Consistent →
      t.timers Purpose.chart = (if t.autoRefresh then 1 else 0) ∧
        t.timers Purpose.actuator = (if t.autoRefresh then 1 else 0) ∧
        (t.autoRefresh = false → t.active = []) := by
    intro t ht
    rcases ht with ⟨h1, h2, -, -⟩ | ⟨h1, c, a, -, -, -, -, -, h5⟩
    · simp [Scheduler.timers, h1, h2]
    · rcases h5 with h5 | h5 <;> simp [Scheduler.timers, h1, h5]
  exact ⟨⟨Scheduler.run_autoRefresh _ events rfl, Scheduler.step_autoRefresh _ ev⟩,
    hcount _ h, hcount _ h', Scheduler.step_clears _ ev h⟩

/-- C16, as the code has it: after every sequence of toggles and effect
re-runs, every active timer has a period of 10 seconds; a firing of the chart
timer calls `fetchChartData` and nothing else, a firing of the actuator timer
calls `fetchActuators` and nothing else; with live-mode on a timer of each
purpose is active. The latest sensor row is fetched by the body of the
subscription effect, not by a timer. -/
theorem timer_firings (events : List SchedulerEvent) :
    (∀ i ∈ (Scheduler.mounted.run events).active,
        i.delayMs = 10000 ∧
          (i.purpose = Purpose.chart → i.callback = [DashboardCall.fetchChartData]) ∧
          (i.purpose = Purpose.actuator → i.callback = [DashboardCall.fetchActuators])) ∧
      ((Scheduler.mounted.run events).autoRefresh = true →
        (∃ i ∈ (Scheduler.mounted.run events).active, i.purpose = Purpose.chart) ∧
          ∃ i ∈ (Scheduler.mounted.run events).active, i.purpose = Purpose.actuator) ∧
      DashboardCall.fetchSensorData ∈ sensorEffectBody := by
  have h := Scheduler.run_consistent Scheduler.mounted events Scheduler.mounted_consistent
  refine ⟨?_, ?_, by decide⟩
  · intro i hi
    rcases h with ⟨-, h2, -, -⟩ | ⟨-, c, a, -, -, -, -, -, h5⟩
    · rw [h2] at hi
      exact absurd hi (List.not_mem_nil _)
    · rcases h5 with h5 | h5 <;> rw [h5] at hi <;>
        simp only [List.mem_cons, List.mem_singleton, List.not_mem_nil, or_false] at hi <;>
        rcases hi with hi | hi <;> subst hi <;> simp [Interval.callback]
  · intro hon
    rcases h with ⟨h1, -, -, -⟩ | ⟨-, c, a, -, -, -, -, -, h5⟩
    · rw [h1] at hon
      exact Bool.noConfusion hon
    · rcases h5 with h5 | h5 <;> rw [h5] <;> simp

/-- C16 refuted as stated: on the mounted dashboard, live-mode on, the chart
timer is the interval 0 with a period of 10 seconds; a firing of it calls
`fetchChartData` only, it does not fetch the latest sensor row. -/
theorem chart_timer_does_not_fetch_sensor_row :
    Scheduler.mounted.autoRefresh = true ∧
      Scheduler.mounted.active =
        [{ id := 1, purpose := Purpose.actuator, delayMs := 10000 },
          { id := 0, purpose := Purpose.chart, delayMs := 10000 }] ∧
      Interval.callback { id := 0, purpose := Purpose.chart, delayMs := 10000 } =
        [DashboardCall.fetchChartData] ∧
      DashboardCall.fetchSensorData ∉
        Interval.callback { id := 0, purpose := Purpose.chart, delayMs := 10000 } := by
  refine ⟨rfl, rfl, rfl, ?_⟩
  simp [Interval.callback]

end BioKontrol
